import Mathlib

/-!
# SPS construction and validation (`src/sunshine/cbs.cpp`)

A shallow embedding of `cbs::write`, `cbs::make_sps_h264`, `cbs::make_sps` and
`cbs::validate_sps`.

* `int` values are mathematical integers; every `int` operation that can leave the
  32-bit range is wrapped (`wrap32`), and the bit operations of `FFALIGN` act on the
  two's-complement bit pattern.  Stores into the 8- and 16-bit fields of the raw SPS
  reduce modulo `2^8` / `2^16` (`u8`, `u16`).
* Two operations of the source can be without a defined result: the integer division
  `framerate.num / framerate.den` and the dereference of a null `active_sps`.  The
  functions that contain them return `Option`, with `none` for that fault.
* The libavcodec / coded-bitstream entry points are not part of the sources.  They are
  the fields of `Library`, arbitrary functions of their arguments; every call the code
  makes is recorded, in order, in the `events` of the `Outcome`, together with the
  `BOOST_LOG` lines.  The destructors of `frag_t` and `ctx_t` are not recorded.
-/

namespace cbs

/-! ## Machine integers -/

/-- Two's-complement bit pattern of an `int`, as a number below `2^32`. -/
def toBits32 (x : Int) : Nat := (x % 4294967296).toNat

/-- The `int` denoted by a 32-bit pattern. -/
def ofBits32 (n : Nat) : Int :=
  if n < 2147483648 then (n : Int) else (n : Int) - 4294967296

/-- Result of an `int` operation, reduced to the 32-bit range. -/
def wrap32 (x : Int) : Int := ofBits32 (toBits32 x)

/-- Bitwise `&` on `int`. -/
def and32 (x y : Int) : Int := ofBits32 (toBits32 x &&& toBits32 y)

/-- Bitwise `~` on `int`. -/
def not32 (x : Int) : Int := ofBits32 (4294967295 - toBits32 x)

/-- Store into a `uint8_t` field. -/
def u8 (x : Int) : Nat := (x % 256).toNat

/-- Store into a `uint16_t` field. -/
def u16 (x : Int) : Nat := (x % 65536).toNat

/-- Integer division `a / b` of two `int` variables: truncating, and without a result
when the divisor is zero or the quotient is not representable. -/
def cdiv (a b : Int) : Option Int :=
  if b = 0 ∨ (a = -2147483648 ∧ b = -1) then none else some (Int.tdiv a b)

/-- Modelled from the spec: the macro `FFALIGN` (libavutil) is not among the sources; the
spec describes its use as rounding up to the next multiple of the alignment.  It is given
here by its libavutil body, `(((x)+(a)-1)&~((a)-1))`, on 32-bit `int`. -/
def FFALIGN (x a : Int) : Int :=
  and32 (wrap32 (wrap32 (x + a) - 1)) (not32 (wrap32 (a - 1)))

/-! ## Constants of the libraries -/

/-- Modelled from the spec: `FF_LEVEL_UNKNOWN`, the value of a level that is not known, is
declared by libavcodec, outside the sources; there it is -99. -/
def FF_LEVEL_UNKNOWN : Int := -99

/-- Modelled from the spec: `FF_PROFILE_H264_HIGH`, the High profile, is declared by
libavcodec, outside the sources; there it is 100. -/
def FF_PROFILE_H264_HIGH : Int := 100

/-- Modelled from the spec: `H264_NAL_SPS`, the NAL unit type of an SPS, is declared by
libavcodec, outside the sources; there it is 7. -/
def H264_NAL_SPS : Int := 7

/-- Modelled from the spec: `AVCOL_RANGE_JPEG`, the full colour range, is declared by
libavutil, outside the sources; there it is 2. -/
def AVCOL_RANGE_JPEG : Int := 2

/-- Modelled from the spec: `AV_CODEC_ID_H264`, the H.264 codec identifier, is declared by
libavcodec, outside the sources; there it is 27. -/
def AV_CODEC_ID_H264 : Int := 27

/-- Modelled from the spec: `AV_CODEC_ID_H265`, the H.265 codec identifier, is declared by
libavcodec, outside the sources; there it is 173. -/
def AV_CODEC_ID_H265 : Int := 173

/-! ## Data model -/

/-- The type `AVRational`: two `int`s. -/
structure AVRational where
  num : Int
  den : Int
deriving DecidableEq, Repr

/-- The fields of `AVCodecContext` that the code reads (the Codec Parameter Context).  The
colour fields are enumerations of the size of an `int`, carried as their number. -/
structure AVCodecContext where
  width : Int
  height : Int
  gop_size : Int
  max_b_frames : Int
  level : Int
  bit_rate : Int
  framerate : AVRational
  color_range : Int
  color_primaries : Int
  color_trc : Int
  colorspace : Int
deriving DecidableEq, Repr

/-- Modelled from the spec: `H264RawNALUnitHeader` (cbs_h264.h), four `uint8_t` fields. -/
structure H264RawNALUnitHeader where
  nal_ref_idc : Nat := 0
  nal_unit_type : Nat := 0
  svc_extension_flag : Nat := 0
  avc_3d_extension_flag : Nat := 0
deriving DecidableEq, Repr

/-- Modelled from the spec: the fields of `H264RawVUI` (cbs_h264.h) that the code reads or
writes, all `uint8_t`; the default is the zero-initialised structure. -/
structure H264RawVUI where
  video_signal_type_present_flag : Nat := 0
  video_format : Nat := 0
  video_full_range_flag : Nat := 0
  colour_description_present_flag : Nat := 0
  colour_primaries : Nat := 0
  transfer_characteristics : Nat := 0
  matrix_coefficients : Nat := 0
  fixed_frame_rate_flag : Nat := 0
  low_delay_hrd_flag : Nat := 0
  bitstream_restriction_flag : Nat := 0
  motion_vectors_over_pic_boundaries_flag : Nat := 0
  log2_max_mv_length_horizontal : Nat := 0
  log2_max_mv_length_vertical : Nat := 0
  max_num_reorder_frames : Nat := 0
  max_dec_frame_buffering : Nat := 0
deriving DecidableEq, Repr

/-- Modelled from the spec: the fields of `H264RawSPS` (cbs_h264.h) that the code writes.
`pic_width_in_mbs_minus1`, `pic_height_in_map_units_minus1` and the four crop offsets are
`uint16_t`, every other field is `uint8_t`.  The default is the zero-initialised
structure of `H264RawSPS sps {}`; the fields left out stay zero throughout. -/
structure H264RawSPS where
  nal_unit_header : H264RawNALUnitHeader := {}
  profile_idc : Nat := 0
  constraint_set1_flag : Nat := 0
  level_idc : Nat := 0
  seq_parameter_set_id : Nat := 0
  chroma_format_idc : Nat := 0
  log2_max_frame_num_minus4 : Nat := 0
  pic_order_cnt_type : Nat := 0
  log2_max_pic_order_cnt_lsb_minus4 : Nat := 0
  max_num_ref_frames : Nat := 0
  pic_width_in_mbs_minus1 : Nat := 0
  pic_height_in_map_units_minus1 : Nat := 0
  frame_mbs_only_flag : Nat := 0
  direct_8x8_inference_flag : Nat := 0
  frame_cropping_flag : Nat := 0
  frame_crop_left_offset : Nat := 0
  frame_crop_right_offset : Nat := 0
  frame_crop_top_offset : Nat := 0
  frame_crop_bottom_offset : Nat := 0
  vui_parameters_present_flag : Nat := 0
  vui : H264RawVUI := {}
deriving DecidableEq, Repr

/-- Modelled from the spec: the one field of `H265RawSPS` (cbs_h265.h) that the code
reads. -/
structure H265RawSPS where
  vui_parameters_present_flag : Nat := 0
deriving DecidableEq, Repr

/-- Modelled from the spec: `H264LevelDescriptor` (h264_levels.h), of which the code reads
`level_idc` (a `uint8_t`). -/
structure H264LevelDescriptor where
  level_idc : Nat
deriving DecidableEq, Repr

/-- Modelled from the spec: `CodedBitstreamH264Context`, the private parser state for
H.264; `active_sps` is a pointer that may be null. -/
structure CodedBitstreamH264Context where
  active_sps : Option H264RawSPS

/-- Modelled from the spec: `CodedBitstreamH265Context`, the private parser state for
H.265; `active_sps` is a pointer that may be null. -/
structure CodedBitstreamH265Context where
  active_sps : Option H265RawSPS

/-- Modelled from the spec: `CodedBitstreamFragment` (the Bitstream Fragment).  `data` is
the memory behind the `data` pointer, by byte offset; `units` are the inserted units,
each a type and the content it points to. -/
structure CodedBitstreamFragment (U : Type) where
  data : Nat → Nat
  data_size : Nat
  data_bit_padding : Nat
  units : List (Nat × U)

/-- The constructor `frag_t()`: every byte of the fragment is zero. -/
def frag_t.new {U : Type} : CodedBitstreamFragment U :=
  ⟨fun _ => 0, 0, 0, []⟩

/-- Severity of a `BOOST_LOG` line. -/
inductive Severity where
  | warning
  | error
deriving DecidableEq, Repr

/-- One observable step of a run: a call into the libraries, or a log line. -/
inductive Event (U : Type) where
  | insert_unit_content (position : Int) (type : Nat) (content : U)
  | cbs_init (codec_id : Int)
  | write_fragment_data
  | read_packet
  | guess_level (profile_idc bit_rate framerate width height max_dec_frame_buffering : Int)
  | log (severity : Severity)
deriving DecidableEq, Repr

/-- What a run returns and the steps it made, in order. -/
structure Outcome (U α : Type) where
  value : α
  events : List (Event U)
deriving DecidableEq, Repr

/-- The entry points of the coded-bitstream library and the level table, which the sources
only call.  `Ctx` is the serialization context behind a `CodedBitstreamContext *`,
`Packet` an `AVPacket`, `U` the content a unit points to.  `priv_h264` / `priv_h265`
are `ctx->priv_data` seen through the cast to the codec's context type. -/
structure Library (Ctx Packet U : Type) where
  ff_cbs_insert_unit_content :
    CodedBitstreamFragment U → Int → Nat → U → Int × CodedBitstreamFragment U
  ff_cbs_init : Int → Int × Ctx
  ff_cbs_write_fragment_data :
    Ctx → CodedBitstreamFragment U → Int × CodedBitstreamFragment U
  ff_cbs_read_packet :
    Ctx → CodedBitstreamFragment U → Packet → Int × Ctx × CodedBitstreamFragment U
  ff_h264_guess_level : Int → Int → Int → Int → Int → Int → Option H264LevelDescriptor
  priv_h264 : Ctx → CodedBitstreamH264Context
  priv_h265 : Ctx → CodedBitstreamH265Context

variable {Ctx Packet U : Type}

/-! ## `write` -/

/-- The function `write(uh, codec_id)`.  `uh` is the object the header reference points
into and `hdr` reads its leading `H264RawNALUnitHeader`. -/
def write (lib : Library Ctx Packet U) (hdr : U → H264RawNALUnitHeader) (uh : U)
    (codec_id : Int) : Outcome U (List Nat) :=
  let frag : CodedBitstreamFragment U := frag_t.new
  let ins := lib.ff_cbs_insert_unit_content frag (-1) (hdr uh).nal_unit_type uh
  let e_ins : Event U := Event.insert_unit_content (-1) (hdr uh).nal_unit_type uh
  if ins.1 < 0 then
    ⟨[], [e_ins, Event.log Severity.error]⟩
  else
    let cbs_ctx := (lib.ff_cbs_init codec_id).2
    let wr := lib.ff_cbs_write_fragment_data cbs_ctx ins.2
    if wr.1 < 0 then
      ⟨[], [e_ins, Event.cbs_init codec_id, Event.write_fragment_data,
        Event.log Severity.error]⟩
    else
      ⟨(List.range wr.2.data_size).map wr.2.data,
        [e_ins, Event.cbs_init codec_id, Event.write_fragment_data]⟩

/-! ## `make_sps_h264` -/

/-- The local `max_b_depth`. -/
def max_b_depth : Int := 1

/-- The local `dpb_frame`. -/
def dpb_frame (ctx : AVCodecContext) : Int :=
  if ctx.gop_size = 1 then 0 else wrap32 (1 + max_b_depth)

/-- The local `mb_width`: `(FFALIGN(ctx->width, 16) / 16) * 16`. -/
def mb_width (ctx : AVCodecContext) : Int :=
  wrap32 (wrap32 (Int.tdiv (FFALIGN ctx.width 16) 16) * 16)

/-- The local `mb_height`: `(FFALIGN(ctx->height, 16) / 16) * 16`. -/
def mb_height (ctx : AVCodecContext) : Int :=
  wrap32 (wrap32 (Int.tdiv (FFALIGN ctx.height 16) 16) * 16)

/-- Lines 78 and 89 to 94: the zero-initialised SPS with the NAL header, the profile and
`constraint_set1_flag` set. -/
def make_sps_h264.head : H264RawSPS :=
  let sps : H264RawSPS := {}
  let sps := { sps with nal_unit_header := { sps.nal_unit_header with nal_ref_idc := u8 3 } }
  let sps := { sps with
    nal_unit_header := { sps.nal_unit_header with nal_unit_type := u8 H264_NAL_SPS } }
  let sps := { sps with profile_idc := u8 (and32 FF_PROFILE_H264_HIGH 255) }
  let sps := { sps with constraint_set1_flag := u8 1 }
  sps

/-- Lines 118 to 131: the fixed fields, the reference-frame count and the picture size
in macroblocks. -/
def make_sps_h264.frame (ctx : AVCodecContext) (sps : H264RawSPS) : H264RawSPS :=
  let sps := { sps with seq_parameter_set_id := u8 0 }
  let sps := { sps with chroma_format_idc := u8 1 }
  let sps := { sps with log2_max_frame_num_minus4 := u8 3 }
  let sps := { sps with pic_order_cnt_type := u8 0 }
  let sps := { sps with log2_max_pic_order_cnt_lsb_minus4 := u8 0 }
  let sps := { sps with max_num_ref_frames := u8 (dpb_frame ctx) }
  let sps := { sps with
    pic_width_in_mbs_minus1 := u16 (wrap32 (Int.tdiv (mb_width ctx) 16 - 1)) }
  let sps := { sps with
    pic_height_in_map_units_minus1 := u16 (wrap32 (Int.tdiv (mb_height ctx) 16 - 1)) }
  let sps := { sps with frame_mbs_only_flag := u8 1 }
  let sps := { sps with direct_8x8_inference_flag := u8 1 }
  sps

/-- Lines 133 to 139: the cropping fields. -/
def make_sps_h264.crop (ctx : AVCodecContext) (sps : H264RawSPS) : H264RawSPS :=
  if ctx.width ≠ mb_width ctx ∨ ctx.height ≠ mb_height ctx then
    let sps := { sps with frame_cropping_flag := u8 1 }
    let sps := { sps with frame_crop_left_offset := u16 0 }
    let sps := { sps with frame_crop_top_offset := u16 0 }
    let sps := { sps with
      frame_crop_right_offset := u16 (Int.tdiv (wrap32 (mb_width ctx - ctx.width)) 2) }
    let sps := { sps with
      frame_crop_bottom_offset := u16 (Int.tdiv (wrap32 (mb_height ctx - ctx.height)) 2) }
    sps
  else sps

/-- Lines 143 to 160: the stores through `auto &vui = sps.vui`. -/
def make_sps_h264.vui (ctx : AVCodecContext) (vui : H264RawVUI) : H264RawVUI :=
  let vui := { vui with video_format := u8 5 }
  let vui := { vui with colour_description_present_flag := u8 1 }
  let vui := { vui with video_signal_type_present_flag := u8 1 }
  let vui := { vui with
    video_full_range_flag := if ctx.color_range = AVCOL_RANGE_JPEG then 1 else 0 }
  let vui := { vui with colour_primaries := u8 ctx.color_primaries }
  let vui := { vui with transfer_characteristics := u8 ctx.color_trc }
  let vui := { vui with matrix_coefficients := u8 ctx.colorspace }
  let vui := { vui with
    low_delay_hrd_flag := u8 (wrap32 (1 - (vui.fixed_frame_rate_flag : Int))) }
  let vui := { vui with bitstream_restriction_flag := u8 1 }
  let vui := { vui with motion_vectors_over_pic_boundaries_flag := u8 1 }
  let vui := { vui with log2_max_mv_length_horizontal := u8 15 }
  let vui := { vui with log2_max_mv_length_vertical := u8 15 }
  let vui := { vui with max_num_reorder_frames := u8 max_b_depth }
  let vui := { vui with max_dec_frame_buffering := u8 (wrap32 (max_b_depth + 1)) }
  vui

/-- Lines 118 to 160: everything that is stored into the SPS after the level. -/
def make_sps_h264.fill (ctx : AVCodecContext) (sps : H264RawSPS) : H264RawSPS :=
  let sps := make_sps_h264.frame ctx sps
  let sps := make_sps_h264.crop ctx sps
  let sps := { sps with vui_parameters_present_flag := u8 1 }
  { sps with vui := make_sps_h264.vui ctx sps.vui }

/-- Lines 118 to 162 after the events `pre`: the SPS is completed and its NAL header is
handed to `write` for H.264. -/
def make_sps_h264.finish (lib : Library Ctx Packet H264RawSPS) (ctx : AVCodecContext)
    (sps : H264RawSPS) (pre : List (Event H264RawSPS)) :
    Outcome H264RawSPS (List Nat) :=
  let out := write lib H264RawSPS.nal_unit_header (make_sps_h264.fill ctx sps)
    AV_CODEC_ID_H264
  ⟨out.value, pre ++ out.events⟩

/-- The function `make_sps_h264(ctx)`. -/
def make_sps_h264 (lib : Library Ctx Packet H264RawSPS) (ctx : AVCodecContext) :
    Option (Outcome H264RawSPS (List Nat)) :=
  let sps := make_sps_h264.head
  if ctx.level ≠ FF_LEVEL_UNKNOWN then
    some (make_sps_h264.finish lib ctx { sps with level_idc := u8 ctx.level } [])
  else
    let framerate := ctx.framerate
    match cdiv framerate.num framerate.den with
    | none => none
    | some fps =>
      let call : Event H264RawSPS :=
        Event.guess_level (sps.profile_idc : Int) ctx.bit_rate fps (mb_width ctx)
          (mb_height ctx) (dpb_frame ctx)
      match lib.ff_h264_guess_level (sps.profile_idc : Int) ctx.bit_rate fps (mb_width ctx)
          (mb_height ctx) (dpb_frame ctx) with
      | none => some ⟨[], [call, Event.log Severity.error]⟩
      | some level =>
        some (make_sps_h264.finish lib ctx { sps with level_idc := level.level_idc } [call])

/-! ## `make_sps` -/

/-- The function `make_sps(ctx, format)`. -/
def make_sps (lib : Library Ctx Packet H264RawSPS) (ctx : AVCodecContext) (format : Int) :
    Option (Outcome H264RawSPS (List Nat)) :=
  if format = 0 then make_sps_h264 lib ctx
  else some ⟨[], [Event.log Severity.warning]⟩

/-! ## `validate_sps` -/

/-- The function `validate_sps(packet, codec_id)`. -/
def validate_sps (lib : Library Ctx Packet U) (packet : Packet) (codec_id : Int) :
    Option (Outcome U Bool) :=
  let ini := lib.ff_cbs_init codec_id
  if ini.1 ≠ 0 then
    some ⟨false, [Event.cbs_init codec_id]⟩
  else
    let frag : CodedBitstreamFragment U := frag_t.new
    let rd := lib.ff_cbs_read_packet ini.2 frag packet
    if rd.1 < 0 then
      some ⟨false, [Event.cbs_init codec_id, Event.read_packet, Event.log Severity.error]⟩
    else if codec_id = AV_CODEC_ID_H264 then
      match (lib.priv_h264 rd.2.1).active_sps with
      | none => none
      | some sps =>
        if sps.vui_parameters_present_flag = 0 then
          some ⟨false, [Event.cbs_init codec_id, Event.read_packet]⟩
        else
          some ⟨true, [Event.cbs_init codec_id, Event.read_packet]⟩
    else
      match (lib.priv_h265 rd.2.1).active_sps with
      | none => none
      | some sps =>
        some ⟨decide (sps.vui_parameters_present_flag ≠ 0),
          [Event.cbs_init codec_id, Event.read_packet]⟩

/-- The status that `ff_cbs_init` returns for the codec. -/
def init_status (lib : Library Ctx Packet U) (codec_id : Int) : Int :=
  (lib.ff_cbs_init codec_id).1

/-- The status that `ff_cbs_read_packet` returns for the packet, with the context that
`ff_cbs_init` made and a new fragment. -/
def parse_status (lib : Library Ctx Packet U) (packet : Packet) (codec_id : Int) : Int :=
  (lib.ff_cbs_read_packet (lib.ff_cbs_init codec_id).2 frag_t.new packet).1

/-- The `vui_parameters_present_flag` of the active SPS after the packet was read, taken
as `validate_sps` takes it: from the H.264 context when the codec is `AV_CODEC_ID_H264`,
from the H.265 context otherwise; `none` when `active_sps` is null. -/
def parsed_vui_flag (lib : Library Ctx Packet U) (packet : Packet) (codec_id : Int) :
    Option Nat :=
  let ctx := (lib.ff_cbs_read_packet (lib.ff_cbs_init codec_id).2 frag_t.new packet).2.1
  if codec_id = AV_CODEC_ID_H264 then
    (lib.priv_h264 ctx).active_sps.map (fun sps => sps.vui_parameters_present_flag)
  else
    (lib.priv_h265 ctx).active_sps.map (fun sps => sps.vui_parameters_present_flag)

/-- What `ff_cbs_insert_unit_content` returns for the unit that `write` inserts into its
new fragment. -/
def inserted (lib : Library Ctx Packet U) (hdr : U → H264RawNALUnitHeader) (uh : U) :
    Int × CodedBitstreamFragment U :=
  lib.ff_cbs_insert_unit_content frag_t.new (-1) (hdr uh).nal_unit_type uh

/-- What `ff_cbs_write_fragment_data` returns for the fragment that holds the unit, with
the context that `ff_cbs_init` made for the codec. -/
def written (lib : Library Ctx Packet U) (hdr : U → H264RawNALUnitHeader) (uh : U)
    (codec_id : Int) : Int × CodedBitstreamFragment U :=
  lib.ff_cbs_write_fragment_data (lib.ff_cbs_init codec_id).2 (inserted lib hdr uh).2

/-- The SPS that `make_sps_h264` completes once the level `l` is stored in `level_idc`. -/
def make_sps_h264.handed (ctx : AVCodecContext) (l : Nat) : H264RawSPS :=
  make_sps_h264.fill ctx { make_sps_h264.head with level_idc := l }

/-! ## Sample inputs -/

/-- A library in which every call succeeds: insertion appends the unit, the level table
answers level 3.1, and writing yields the four bytes `0, 1, 2, 3`. -/
def sampleLibrary : Library Unit Unit H264RawSPS where
  ff_cbs_insert_unit_content frag _ type content :=
    (0, { frag with units := frag.units ++ [(type, content)] })
  ff_cbs_init _ := (0, ())
  ff_cbs_write_fragment_data _ frag :=
    (0, { frag with data := fun i => i, data_size := 4, data_bit_padding := 3 })
  ff_cbs_read_packet c frag _ := (0, c, frag)
  ff_h264_guess_level _ _ _ _ _ _ := some ⟨31⟩
  priv_h264 _ := ⟨none⟩
  priv_h265 _ := ⟨none⟩

/-- The context of a 1282 by 720 stream at 60 frames per second, level not given. -/
def ctx1282 : AVCodecContext where
  width := 1282
  height := 720
  gop_size := 30
  max_b_frames := 0
  level := FF_LEVEL_UNKNOWN
  bit_rate := 10000000
  framerate := ⟨60, 1⟩
  color_range := AVCOL_RANGE_JPEG
  color_primaries := 1
  color_trc := 13
  colorspace := 5

/-- The SPS that `make_sps_h264` builds for `ctx1282` at level 3.1. -/
def sps1282 : H264RawSPS where
  nal_unit_header := { nal_ref_idc := 3, nal_unit_type := 7 }
  profile_idc := 100
  constraint_set1_flag := 1
  level_idc := 31
  chroma_format_idc := 1
  log2_max_frame_num_minus4 := 3
  max_num_ref_frames := 2
  pic_width_in_mbs_minus1 := 80
  pic_height_in_map_units_minus1 := 44
  frame_mbs_only_flag := 1
  direct_8x8_inference_flag := 1
  frame_cropping_flag := 1
  frame_crop_right_offset := 7
  vui_parameters_present_flag := 1
  vui := {
    video_signal_type_present_flag := 1
    video_format := 5
    video_full_range_flag := 1
    colour_description_present_flag := 1
    colour_primaries := 1
    transfer_characteristics := 13
    matrix_coefficients := 5
    low_delay_hrd_flag := 1
    bitstream_restriction_flag := 1
    motion_vectors_over_pic_boundaries_flag := 1
    log2_max_mv_length_horizontal := 15
    log2_max_mv_length_vertical := 15
    max_num_reorder_frames := 1
    max_dec_frame_buffering := 2 }

/-- The context of a 1280 by 720 stream at 60 frames per second, level not given. -/
def ctx720p : AVCodecContext := { ctx1282 with width := 1280 }

/-- The SPS that `make_sps_h264` builds for `ctx720p` at level 3.1. -/
def sps720p : H264RawSPS :=
  { sps1282 with
    pic_width_in_mbs_minus1 := 79
    frame_cropping_flag := 0
    frame_crop_right_offset := 0 }

/-- The context `ctx720p` with a bit rate of 2 Gbit/s. -/
def ctx720pFast : AVCodecContext := { ctx720p with bit_rate := 2000000000 }

/-- The library `sampleLibrary` with a level table that has no level for a bit rate above
1.2 Gbit/s. -/
def cappedLibrary : Library Unit Unit H264RawSPS :=
  { sampleLibrary with
    ff_h264_guess_level := fun _ bit_rate _ _ _ _ =>
      if bit_rate > 1200000000 then none else some ⟨31⟩ }

/-- The library `sampleLibrary` with an insertion that fails. -/
def failedInsertLibrary : Library Unit Unit H264RawSPS :=
  { sampleLibrary with ff_cbs_insert_unit_content := fun frag _ _ _ => (-12, frag) }

/-- The library `sampleLibrary` with a fragment write that fails. -/
def failedWriteLibrary : Library Unit Unit H264RawSPS :=
  { sampleLibrary with ff_cbs_write_fragment_data := fun _ frag => (-22, frag) }

/-- The library `sampleLibrary` with a fragment write that succeeds and leaves no byte. -/
def emptyWriteLibrary : Library Unit Unit H264RawSPS :=
  { sampleLibrary with
    ff_cbs_write_fragment_data := fun _ frag => (0, { frag with data_size := 0 }) }

/-- The context `ctx1282` with colour codes outside the range of 8 bits. -/
def ctxWideColour : AVCodecContext :=
  { ctx1282 with color_primaries := 256, color_trc := 257, colorspace := -1 }

/-- A library for `validate_sps`: a packet is given by the status its parse returns, the
parser leaves an active SPS with the given `vui_parameters_present_flag` for both codecs,
and the initialisation succeeds for H.264 and H.265 only. -/
def parserLibrary (flag : Nat) : Library Unit Int H264RawSPS :=
  { ff_cbs_insert_unit_content := fun frag _ _ _ => (0, frag)
    ff_cbs_init := fun codec_id =>
      (if codec_id = AV_CODEC_ID_H264 ∨ codec_id = AV_CODEC_ID_H265 then 0 else -22, ())
    ff_cbs_write_fragment_data := fun _ frag => (0, frag)
    ff_cbs_read_packet := fun c frag packet => (packet, c, frag)
    ff_h264_guess_level := fun _ _ _ _ _ _ => none
    priv_h264 := fun _ => ⟨some { vui_parameters_present_flag := flag }⟩
    priv_h265 := fun _ => ⟨some ⟨flag⟩⟩ }

/-! ## Arithmetic of the alignment -/

theorem wrap32_of_range (x : Int) (h1 : -2147483648 ≤ x) (h2 : x < 2147483648) :
    wrap32 x = x := by
  unfold wrap32 ofBits32 toBits32
  omega

theorem wrap32_range (x : Int) : -2147483648 ≤ wrap32 x ∧ wrap32 x < 2147483648 := by
  unfold wrap32 ofBits32 toBits32
  omega

theorem u8_of_range (x : Int) (h1 : 0 ≤ x) (h2 : x < 256) : (u8 x : Int) = x := by
  unfold u8
  omega

theorem u16_of_range (x : Int) (h1 : 0 ≤ x) (h2 : x < 65536) : (u16 x : Int) = x := by
  unfold u16
  omega

/-- Masking a 32-bit pattern with `0xFFFFFFF0` clears its four low bits. -/
theorem land_mask16 (n : Nat) (h : n < 4294967296) : n &&& 4294967280 = n - n % 16 := by
  apply Nat.eq_of_testBit_eq
  intro i
  have e1 : (4294967280 : Nat) = (2 ^ 28 - 1) <<< 4 := by decide
  have e2 : n - n % 16 = (n >>> 4) <<< 4 := by
    rw [Nat.shiftLeft_eq, Nat.shiftRight_eq_div_pow]
    omega
  rw [e2, Nat.testBit_and, e1, Nat.testBit_shiftLeft, Nat.testBit_shiftLeft,
    Nat.testBit_shiftRight, Nat.testBit_two_pow_sub_one]
  have e : 4 ≤ i → 4 + (i - 4) = i := fun h4 => by omega
  by_cases h4 : 4 ≤ i
  · by_cases h32 : i < 32
    · have hi : i - 4 < 28 := by omega
      simp [h4, hi, e h4]
    · have hp : 4294967296 ≤ 2 ^ i :=
        calc 4294967296 = 2 ^ 32 := by norm_num
          _ ≤ 2 ^ i := Nat.pow_le_pow_right (by norm_num) (by omega)
      have hb : n.testBit i = false := Nat.testBit_lt_two_pow (lt_of_lt_of_le h hp)
      simp [hb, e h4]
  · simp [h4]

/-- On every `int`, `FFALIGN(x, 16)` is `x + 15` (wrapped) with its four low bits cleared. -/
theorem FFALIGN_16 (x : Int) :
    FFALIGN x 16 = wrap32 (x + 15) - wrap32 (x + 15) % 16 := by
  unfold FFALIGN and32
  have hm : toBits32 (not32 (wrap32 (16 - 1))) = 4294967280 := by decide
  rw [hm, land_mask16 _ (by unfold toBits32; omega)]
  unfold wrap32 ofBits32 toBits32
  omega

/-- The expression `(FFALIGN(x, 16) / 16) * 16` gives `FFALIGN(x, 16)` back. -/
theorem align16_eq (x : Int) :
    wrap32 (wrap32 (Int.tdiv (FFALIGN x 16) 16) * 16) = FFALIGN x 16 := by
  rw [FFALIGN_16]
  have hr := wrap32_range (x + 15)
  generalize wrap32 (x + 15) = w at hr
  have hd : (16 : Int) ∣ w - w % 16 := by omega
  rw [Int.tdiv_eq_ediv_of_dvd hd, wrap32_of_range ((w - w % 16) / 16) (by omega) (by omega),
    wrap32_of_range _ (by omega) (by omega)]
  omega

/-- Within the `int` range the aligned dimension is `x + 15` rounded down to a multiple
of 16. -/
theorem align16_of_range (x : Int) (h1 : -2147483648 ≤ x + 15) (h2 : x + 15 < 2147483648) :
    wrap32 (wrap32 (Int.tdiv (FFALIGN x 16) 16) * 16) = x + 15 - (x + 15) % 16 := by
  rw [align16_eq, FFALIGN_16, wrap32_of_range _ h1 h2]

theorem mb_width_of_range (ctx : AVCodecContext) (h1 : -2147483648 ≤ ctx.width + 15)
    (h2 : ctx.width + 15 < 2147483648) :
    mb_width ctx = ctx.width + 15 - (ctx.width + 15) % 16 :=
  align16_of_range _ h1 h2

theorem mb_height_of_range (ctx : AVCodecContext) (h1 : -2147483648 ≤ ctx.height + 15)
    (h2 : ctx.height + 15 < 2147483648) :
    mb_height ctx = ctx.height + 15 - (ctx.height + 15) % 16 :=
  align16_of_range _ h1 h2

/-! ## The steps of a run -/

/-- Every step of `write` is the insertion of the unit it was given, the context
initialisation, the fragment write or an error line. -/
theorem write_event_cases (lib : Library Ctx Packet U) (hdr : U → H264RawNALUnitHeader)
    (uh : U) (codec_id : Int) (e : Event U) (he : e ∈ (write lib hdr uh codec_id).events) :
    e = Event.insert_unit_content (-1) (hdr uh).nal_unit_type uh ∨ e = Event.cbs_init codec_id ∨
      e = Event.write_fragment_data ∨ e = Event.log Severity.error := by
  unfold write at he
  dsimp only at he
  split_ifs at he <;> simp at he <;> tauto

/-- An SPS that `make_sps_h264` hands to the serializer is the head of the SPS with some
level, completed by lines 118 to 160. -/
theorem handed_sps (lib : Library Ctx Packet H264RawSPS) (ctx : AVCodecContext)
    (r : Outcome H264RawSPS (List Nat)) (pos : Int) (ty : Nat) (sps : H264RawSPS)
    (hr : make_sps_h264 lib ctx = some r)
    (he : Event.insert_unit_content pos ty sps ∈ r.events) :
    ∃ l, sps = make_sps_h264.fill ctx { make_sps_h264.head with level_idc := l } := by
  unfold make_sps_h264 at hr
  dsimp only at hr
  split_ifs at hr with hl
  · injection hr with hr
    subst hr
    simp only [make_sps_h264.finish, List.nil_append] at he
    rcases write_event_cases _ _ _ _ _ he with h | h | h | h
    · injection h with _ _ h3
      exact ⟨_, h3⟩
    all_goals cases h
  · split at hr
    · cases hr
    · split at hr
      · injection hr with hr
        subst hr
        simp at he
      · injection hr with hr
        subst hr
        simp only [make_sps_h264.finish, List.singleton_append, List.mem_cons] at he
        rcases he with h | he
        · cases h
        rcases write_event_cases _ _ _ _ _ he with h | h | h | h
        · injection h with _ _ h3
          exact ⟨_, h3⟩
        all_goals cases h

/-- The first step of `write` is the insertion of its unit; the steps after it are the
context initialisation, the fragment write or an error line. -/
theorem write_events_head (lib : Library Ctx Packet U) (hdr : U → H264RawNALUnitHeader)
    (uh : U) (codec_id : Int) :
    ∃ rest, (write lib hdr uh codec_id).events =
        Event.insert_unit_content (-1) (hdr uh).nal_unit_type uh :: rest ∧
      ∀ e ∈ rest, e = Event.cbs_init codec_id ∨ e = Event.write_fragment_data ∨
        e = Event.log Severity.error := by
  unfold write
  dsimp only
  split_ifs
  · exact ⟨_, rfl, by simp⟩
  · exact ⟨_, rfl, by simp⟩
  · exact ⟨_, rfl, by simp⟩

/-- The division of the frame rate has a result when the divisor is not zero and the
quotient is representable. -/
theorem cdiv_defined (a b : Int) (hb : b ≠ 0) (hq : ¬ (a = -2147483648 ∧ b = -1)) :
    cdiv a b = some (Int.tdiv a b) := by
  unfold cdiv
  rw [if_neg]
  rintro (h | h)
  · exact hb h
  · exact hq h

/-! ## Cropping and macroblock alignment -/

/-- C1: for a context whose width and height are non-negative with `width + 15` and
`height + 15` inside the 32-bit range, and of which at least one is not a multiple of 16,
`mb_width` and `mb_height` are the smallest multiples of 16 not below the width and the
height, and every SPS that `make_sps_h264` hands to the serializer has
`frame_cropping_flag = 1`, `frame_crop_right_offset = (mb_width - width) / 2`,
`frame_crop_bottom_offset = (mb_height - height) / 2` and left and top offsets 0.  Both
numerators are non-negative, so `/` is the division of the source. -/
theorem make_sps_h264_crop_offsets (lib : Library Ctx Packet H264RawSPS)
    (ctx : AVCodecContext)
    (hw0 : 0 ≤ ctx.width) (hw1 : ctx.width + 15 ≤ 2147483647)
    (hh0 : 0 ≤ ctx.height) (hh1 : ctx.height + 15 ≤ 2147483647)
    (hna : ¬ (16 ∣ ctx.width) ∨ ¬ (16 ∣ ctx.height)) :
    (16 ∣ mb_width ctx ∧ ctx.width ≤ mb_width ctx ∧
      ∀ m : Int, 16 ∣ m → ctx.width ≤ m → mb_width ctx ≤ m) ∧
    (16 ∣ mb_height ctx ∧ ctx.height ≤ mb_height ctx ∧
      ∀ m : Int, 16 ∣ m → ctx.height ≤ m → mb_height ctx ≤ m) ∧
    ∀ (r : Outcome H264RawSPS (List Nat)) (pos : Int) (ty : Nat) (sps : H264RawSPS),
      make_sps_h264 lib ctx = some r →
      Event.insert_unit_content pos ty sps ∈ r.events →
      sps.frame_cropping_flag = 1 ∧
      (sps.frame_crop_right_offset : Int) = (mb_width ctx - ctx.width) / 2 ∧
      (sps.frame_crop_bottom_offset : Int) = (mb_height ctx - ctx.height) / 2 ∧
      sps.frame_crop_left_offset = 0 ∧ sps.frame_crop_top_offset = 0 := by
  have hmw := mb_width_of_range ctx (by omega) (by omega)
  have hmh := mb_height_of_range ctx (by omega) (by omega)
  refine ⟨⟨by omega, by omega, fun m hm hle => by omega⟩,
    ⟨by omega, by omega, fun m hm hle => by omega⟩, ?_⟩
  intro r pos ty sps hr he
  obtain ⟨l, rfl⟩ := handed_sps lib ctx r pos ty sps hr he
  have hc : ctx.width ≠ mb_width ctx ∨ ctx.height ≠ mb_height ctx := by omega
  simp only [make_sps_h264.fill, make_sps_h264.crop, if_pos hc]
  refine ⟨by decide, ?_, ?_, by decide, by decide⟩
  · rw [wrap32_of_range _ (by omega) (by omega), Int.tdiv_eq_ediv (by omega) (by omega),
      u16_of_range _ (by omega) (by omega)]
  · rw [wrap32_of_range _ (by omega) (by omega), Int.tdiv_eq_ediv (by omega) (by omega),
      u16_of_range _ (by omega) (by omega)]

/-- C1, at width 1282 and height 720: the aligned width is 1296, and the SPS handed to the
serializer has cropping flag 1, right offset 7 and bottom offset 0. -/
theorem make_sps_h264_crop_offsets_witness :
    mb_width ctx1282 = 1296 ∧ mb_height ctx1282 = 720 ∧
    make_sps_h264 sampleLibrary ctx1282 = some ⟨[0, 1, 2, 3],
      [Event.guess_level 100 10000000 60 1296 720 2,
        Event.insert_unit_content (-1) 7 sps1282, Event.cbs_init 27,
        Event.write_fragment_data]⟩ ∧
    sps1282.frame_cropping_flag = 1 ∧
    (sps1282.frame_crop_right_offset : Int) = (mb_width ctx1282 - 1282) / 2 ∧
    (sps1282.frame_crop_bottom_offset : Int) = (mb_height ctx1282 - 720) / 2 ∧
    sps1282.frame_crop_left_offset = 0 ∧ sps1282.frame_crop_top_offset = 0 :=
  ⟨by decide, by decide, by decide,
    (make_sps_h264_crop_offsets sampleLibrary ctx1282 (by decide) (by decide) (by decide)
      (by decide) (Or.inl (by decide))).2.2 _ (-1) 7 sps1282
      (by decide : make_sps_h264 sampleLibrary ctx1282 = some ⟨[0, 1, 2, 3],
        [Event.guess_level 100 10000000 60 1296 720 2,
          Event.insert_unit_content (-1) 7 sps1282, Event.cbs_init 27,
          Event.write_fragment_data]⟩)
      (by decide)⟩

/-- Every level lookup of `make_sps_h264` is made with the profile 100, the bit rate, the
quotient of the frame rate, `mb_width`, `mb_height` and `dpb_frame`. -/
theorem guess_level_args (lib : Library Ctx Packet H264RawSPS) (ctx : AVCodecContext)
    (r : Outcome H264RawSPS (List Nat)) (p b f w h d : Int)
    (hr : make_sps_h264 lib ctx = some r)
    (he : Event.guess_level p b f w h d ∈ r.events) :
    p = 100 ∧ b = ctx.bit_rate ∧ cdiv ctx.framerate.num ctx.framerate.den = some f ∧
      w = mb_width ctx ∧ h = mb_height ctx ∧ d = dpb_frame ctx := by
  unfold make_sps_h264 at hr
  dsimp only at hr
  split_ifs at hr with hl
  · injection hr with hr
    subst hr
    simp only [make_sps_h264.finish, List.nil_append] at he
    rcases write_event_cases _ _ _ _ _ he with h | h | h | h <;> cases h
  · split at hr
    · cases hr
    · rename_i fps hfps
      have key : ∀ e : Event H264RawSPS, e = Event.guess_level p b f w h d →
          e = Event.guess_level ((make_sps_h264.head.profile_idc : Nat) : Int) ctx.bit_rate fps
            (mb_width ctx) (mb_height ctx) (dpb_frame ctx) →
          p = 100 ∧ b = ctx.bit_rate ∧ cdiv ctx.framerate.num ctx.framerate.den = some f ∧
            w = mb_width ctx ∧ h = mb_height ctx ∧ d = dpb_frame ctx := by
        intro e h1 h2
        rw [h1] at h2
        injection h2 with e1 e2 e3 e4 e5 e6
        subst e2 e3 e4 e5 e6
        exact ⟨by rw [e1]; decide, rfl, hfps, rfl, rfl, rfl⟩
      split at hr
      · injection hr with hr
        subst hr
        simp only [List.mem_cons, List.mem_singleton, List.not_mem_nil, or_false] at he
        rcases he with h1 | h1
        · exact key _ rfl h1
        · cases h1
      · injection hr with hr
        subst hr
        simp only [make_sps_h264.finish, List.singleton_append, List.mem_cons] at he
        rcases he with h1 | he
        · exact key _ rfl h1
        · rcases write_event_cases _ _ _ _ _ he with h | h | h | h <;> cases h

/-- Lines 118 to 160 leave the NAL unit header as it is. -/
theorem fill_nal_unit_header (ctx : AVCodecContext) (sps : H264RawSPS) :
    (make_sps_h264.fill ctx sps).nal_unit_header = sps.nal_unit_header := by
  simp only [make_sps_h264.fill, make_sps_h264.crop]
  split_ifs <;> rfl

/-- The buffer of `write` is non-empty exactly when both library calls return a
non-negative status and the written fragment has bytes; it then has `data_size` bytes. -/
theorem write_value_nonempty (lib : Library Ctx Packet U) (hdr : U → H264RawNALUnitHeader)
    (uh : U) (codec_id : Int) :
    ((write lib hdr uh codec_id).value ≠ [] ↔
      0 ≤ (inserted lib hdr uh).1 ∧ 0 ≤ (written lib hdr uh codec_id).1 ∧
        0 < (written lib hdr uh codec_id).2.data_size) ∧
    ((write lib hdr uh codec_id).value ≠ [] →
      (write lib hdr uh codec_id).value.length = (written lib hdr uh codec_id).2.data_size) := by
  unfold write written inserted
  dsimp only
  split_ifs with h1 h2
  · exact ⟨⟨fun h => absurd rfl h, fun h => absurd h1 (not_lt.2 h.1)⟩, fun h => absurd rfl h⟩
  · exact ⟨⟨fun h => absurd rfl h, fun h => absurd h2 (not_lt.2 h.2.1)⟩, fun h => absurd rfl h⟩
  · refine ⟨⟨fun h => ⟨not_lt.1 h1, not_lt.1 h2, ?_⟩, fun h => ?_⟩, fun _ => by simp⟩
    · rcases Nat.eq_zero_or_pos (lib.ff_cbs_write_fragment_data (lib.ff_cbs_init codec_id).2
          (lib.ff_cbs_insert_unit_content frag_t.new (-1) (hdr uh).nal_unit_type
            uh).2).2.data_size with h0 | h0
      · rw [h0] at h
        exact absurd rfl h
      · exact h0
    · intro hnil
      have hlen := congrArg List.length hnil
      simp at hlen
      omega

/-- The run that hands the SPS for the level `l` to `write`, after the steps `pre`. -/
theorem finish_run (lib : Library Ctx Packet H264RawSPS) (ctx : AVCodecContext) (l : Nat)
    (pre : List (Event H264RawSPS)) :
    Event.insert_unit_content (-1) 7 (make_sps_h264.handed ctx l) ∈
      (make_sps_h264.finish lib ctx { make_sps_h264.head with level_idc := l } pre).events ∧
    ((make_sps_h264.finish lib ctx { make_sps_h264.head with level_idc := l } pre).value ≠ [] ↔
      0 ≤ (inserted lib H264RawSPS.nal_unit_header (make_sps_h264.handed ctx l)).1 ∧
      0 ≤ (written lib H264RawSPS.nal_unit_header (make_sps_h264.handed ctx l)
        AV_CODEC_ID_H264).1 ∧
      0 < (written lib H264RawSPS.nal_unit_header (make_sps_h264.handed ctx l)
        AV_CODEC_ID_H264).2.data_size) ∧
    ((make_sps_h264.finish lib ctx { make_sps_h264.head with level_idc := l } pre).value ≠ [] →
      (make_sps_h264.finish lib ctx { make_sps_h264.head with level_idc := l } pre).value.length
        = (written lib H264RawSPS.nal_unit_header (make_sps_h264.handed ctx l)
          AV_CODEC_ID_H264).2.data_size) := by
  obtain ⟨rest, hev, _⟩ := write_events_head lib H264RawSPS.nal_unit_header
    (make_sps_h264.handed ctx l) AV_CODEC_ID_H264
  have hty : (make_sps_h264.handed ctx l).nal_unit_header.nal_unit_type = 7 := by
    unfold make_sps_h264.handed
    rw [fill_nal_unit_header]
    rfl
  rw [hty] at hev
  have hw := write_value_nonempty lib H264RawSPS.nal_unit_header (make_sps_h264.handed ctx l)
    AV_CODEC_ID_H264
  refine ⟨?_, hw.1, hw.2⟩
  show _ ∈ pre ++ (write lib H264RawSPS.nal_unit_header (make_sps_h264.handed ctx l)
    AV_CODEC_ID_H264).events
  rw [hev]
  exact List.mem_append_right _ (List.mem_cons_self _ _)

/-- C2, as amended: for a context whose width and height are multiples of 16 in the `int`
range, `mb_width` and `mb_height` are the width and the height and every SPS that
`make_sps` hands to the serializer for format 0 has `frame_cropping_flag = 0` and the four
crop offsets 0.  When a level is selected (the level of the context is known, or the
frame-rate division has a result and the lookup returns a level), `make_sps` returns, the
SPS for that level is handed to the serializer, and the buffer is non-empty exactly when
the insertion and the fragment write return non-negative statuses and the written
fragment has `data_size > 0`; its length is then `data_size`.  When the lookup returns
nothing, the result is the empty buffer. -/
theorem make_sps_aligned_no_cropping (lib : Library Ctx Packet H264RawSPS)
    (ctx : AVCodecContext)
    (hw : 16 ∣ ctx.width) (hw0 : -2147483648 ≤ ctx.width) (hw1 : ctx.width < 2147483648)
    (hh : 16 ∣ ctx.height) (hh0 : -2147483648 ≤ ctx.height) (hh1 : ctx.height < 2147483648) :
    mb_width ctx = ctx.width ∧ mb_height ctx = ctx.height ∧
    (∀ r : Outcome H264RawSPS (List Nat), make_sps lib ctx 0 = some r →
      ∀ (pos : Int) (ty : Nat) (sps : H264RawSPS),
        Event.insert_unit_content pos ty sps ∈ r.events →
        sps.frame_cropping_flag = 0 ∧ sps.frame_crop_left_offset = 0 ∧
        sps.frame_crop_right_offset = 0 ∧ sps.frame_crop_top_offset = 0 ∧
        sps.frame_crop_bottom_offset = 0) ∧
    (∀ l : Nat,
      ((ctx.level ≠ FF_LEVEL_UNKNOWN ∧ l = u8 ctx.level) ∨
        (ctx.level = FF_LEVEL_UNKNOWN ∧ ctx.framerate.den ≠ 0 ∧
          ¬ (ctx.framerate.num = -2147483648 ∧ ctx.framerate.den = -1) ∧
          ∃ level : H264LevelDescriptor,
            lib.ff_h264_guess_level 100 ctx.bit_rate
              (Int.tdiv ctx.framerate.num ctx.framerate.den) (mb_width ctx) (mb_height ctx)
              (dpb_frame ctx) = some level ∧ l = level.level_idc)) →
      ∃ r : Outcome H264RawSPS (List Nat), make_sps lib ctx 0 = some r ∧
        Event.insert_unit_content (-1) 7 (make_sps_h264.handed ctx l) ∈ r.events ∧
        (r.value ≠ [] ↔
          0 ≤ (inserted lib H264RawSPS.nal_unit_header (make_sps_h264.handed ctx l)).1 ∧
          0 ≤ (written lib H264RawSPS.nal_unit_header (make_sps_h264.handed ctx l)
            AV_CODEC_ID_H264).1 ∧
          0 < (written lib H264RawSPS.nal_unit_header (make_sps_h264.handed ctx l)
            AV_CODEC_ID_H264).2.data_size) ∧
        (r.value ≠ [] →
          r.value.length = (written lib H264RawSPS.nal_unit_header
            (make_sps_h264.handed ctx l) AV_CODEC_ID_H264).2.data_size)) ∧
    (ctx.level = FF_LEVEL_UNKNOWN → ctx.framerate.den ≠ 0 →
      ¬ (ctx.framerate.num = -2147483648 ∧ ctx.framerate.den = -1) →
      lib.ff_h264_guess_level 100 ctx.bit_rate
        (Int.tdiv ctx.framerate.num ctx.framerate.den) (mb_width ctx) (mb_height ctx)
        (dpb_frame ctx) = none →
      make_sps lib ctx 0 = some ⟨[],
        [Event.guess_level 100 ctx.bit_rate
          (Int.tdiv ctx.framerate.num ctx.framerate.den) (mb_width ctx) (mb_height ctx)
          (dpb_frame ctx), Event.log Severity.error]⟩) := by
  have hmw : mb_width ctx = ctx.width := by
    rw [mb_width_of_range ctx (by omega) (by omega)]
    omega
  have hmh : mb_height ctx = ctx.height := by
    rw [mb_height_of_range ctx (by omega) (by omega)]
    omega
  have hfmt : make_sps lib ctx 0 = make_sps_h264 lib ctx := by
    unfold make_sps
    rw [if_pos rfl]
  have hp : ((make_sps_h264.head.profile_idc : Nat) : Int) = 100 := by decide
  refine ⟨hmw, hmh, ?_, ?_, ?_⟩
  · intro r hr pos ty sps he
    rw [hfmt] at hr
    obtain ⟨l, rfl⟩ := handed_sps lib ctx r pos ty sps hr he
    have hc : ¬ (ctx.width ≠ mb_width ctx ∨ ctx.height ≠ mb_height ctx) := by
      rw [hmw, hmh]
      simp
    simp only [make_sps_h264.fill, make_sps_h264.crop, if_neg hc]
    exact ⟨rfl, rfl, rfl, rfl, rfl⟩
  · intro l hsel
    rw [hfmt]
    rcases hsel with ⟨hl, rfl⟩ | ⟨hl, hden, hq, level, hlev, rfl⟩
    · refine ⟨make_sps_h264.finish lib ctx
        { make_sps_h264.head with level_idc := u8 ctx.level } [], ?_, finish_run lib ctx _ []⟩
      unfold make_sps_h264
      rw [if_pos hl]
    · refine ⟨make_sps_h264.finish lib ctx
        { make_sps_h264.head with level_idc := level.level_idc }
        [Event.guess_level 100 ctx.bit_rate
          (Int.tdiv ctx.framerate.num ctx.framerate.den) (mb_width ctx) (mb_height ctx)
          (dpb_frame ctx)], ?_, finish_run lib ctx _ _⟩
      unfold make_sps_h264
      rw [if_neg (by simpa using hl)]
      simp only [cdiv_defined _ _ hden hq, hp, hlev]
  · intro hl hden hq hlev
    rw [hfmt]
    unfold make_sps_h264
    rw [if_neg (by simpa using hl)]
    simp only [cdiv_defined _ _ hden hq, hp, hlev]

/-- C2, as amended, at 1280 by 720 with a library that succeeds and writes four bytes: the
SPS handed on is not cropped and the buffer is not empty. -/
theorem make_sps_aligned_no_cropping_witness :
    ∃ r : Outcome H264RawSPS (List Nat), make_sps sampleLibrary ctx720p 0 = some r ∧
      Event.insert_unit_content (-1) 7 sps720p ∈ r.events ∧
      r.value ≠ [] ∧ r.value.length = 4 ∧
      sps720p.frame_cropping_flag = 0 ∧ sps720p.frame_crop_left_offset = 0 ∧
      sps720p.frame_crop_right_offset = 0 ∧ sps720p.frame_crop_top_offset = 0 ∧
      sps720p.frame_crop_bottom_offset = 0 := by
  have h := make_sps_aligned_no_cropping sampleLibrary ctx720p (by decide) (by decide)
    (by decide) (by decide) (by decide) (by decide)
  obtain ⟨r, hr, he, hne, hlen⟩ := h.2.2.2.1 31
    (Or.inr ⟨rfl, by decide, by decide, ⟨31⟩, rfl, rfl⟩)
  have he2 : Event.insert_unit_content (-1) 7 sps720p ∈ r.events := by
    have e : make_sps_h264.handed ctx720p 31 = sps720p := by decide
    rw [← e]
    exact he
  have hv : r.value ≠ [] := hne.2 ⟨by decide, by decide, by decide⟩
  exact ⟨r, hr, he2, hv, hlen hv, h.2.2.1 r hr (-1) 7 sps720p he2⟩

/-- C2, as stated, fails: at 1280 by 720, 60 frames per second and 10 Mbit/s `make_sps`
returns the empty buffer for format 0 when the fragment write fails, when the insertion
fails and when the fragment write leaves no byte; and at 2 Gbit/s it returns the empty
buffer when the level table has no level for that bit rate. -/
theorem make_sps_aligned_empty_buffer :
    (16 ∣ ctx720p.width ∧ 16 ∣ ctx720p.height) ∧
    make_sps failedWriteLibrary ctx720p 0 = some ⟨[],
      [Event.guess_level 100 10000000 60 1280 720 2,
        Event.insert_unit_content (-1) 7 sps720p, Event.cbs_init 27,
        Event.write_fragment_data, Event.log Severity.error]⟩ ∧
    (¬ ∃ r, make_sps failedWriteLibrary ctx720p 0 = some r ∧ r.value ≠ []) ∧
    make_sps failedInsertLibrary ctx720p 0 = some ⟨[],
      [Event.guess_level 100 10000000 60 1280 720 2,
        Event.insert_unit_content (-1) 7 sps720p, Event.log Severity.error]⟩ ∧
    make_sps emptyWriteLibrary ctx720p 0 = some ⟨[],
      [Event.guess_level 100 10000000 60 1280 720 2,
        Event.insert_unit_content (-1) 7 sps720p, Event.cbs_init 27,
        Event.write_fragment_data]⟩ ∧
    make_sps cappedLibrary ctx720pFast 0 = some ⟨[],
      [Event.guess_level 100 2000000000 60 1280 720 2, Event.log Severity.error]⟩ := by
  have h : make_sps failedWriteLibrary ctx720p 0 = some ⟨[],
      [Event.guess_level 100 10000000 60 1280 720 2,
        Event.insert_unit_content (-1) 7 sps720p, Event.cbs_init 27,
        Event.write_fragment_data, Event.log Severity.error]⟩ := by
    decide
  refine ⟨⟨by decide, by decide⟩, h, ?_, by decide, by decide, by decide⟩
  rintro ⟨r, hr, hv⟩
  rw [h] at hr
  injection hr with hr
  subst hr
  exact hv rfl

/-! ## Decoded-picture-buffer depth -/

/-- C3: `dpb_frame` is 0 when `gop_size` is 1 and 2 for every other `gop_size`, whatever
`max_b_frames` is; that value is what every SPS handed to the serializer carries in
`max_num_ref_frames` and what every level lookup receives as its last argument. -/
theorem dpb_frame_by_gop_size (lib : Library Ctx Packet H264RawSPS) (ctx : AVCodecContext) :
    dpb_frame ctx = (if ctx.gop_size = 1 then 0 else 2) ∧
    (∀ b : Int, dpb_frame { ctx with max_b_frames := b } = dpb_frame ctx) ∧
    ∀ r : Outcome H264RawSPS (List Nat), make_sps_h264 lib ctx = some r →
      (∀ (pos : Int) (ty : Nat) (sps : H264RawSPS),
        Event.insert_unit_content pos ty sps ∈ r.events →
        sps.max_num_ref_frames = if ctx.gop_size = 1 then 0 else 2) ∧
      (∀ p b f w h d : Int, Event.guess_level p b f w h d ∈ r.events →
        d = if ctx.gop_size = 1 then 0 else 2) := by
  have hd : dpb_frame ctx = (if ctx.gop_size = 1 then 0 else 2) := by
    unfold dpb_frame
    split_ifs
    · rfl
    · decide
  refine ⟨hd, fun b => rfl, ?_⟩
  intro r hr
  constructor
  · intro pos ty sps he
    obtain ⟨l, rfl⟩ := handed_sps lib ctx r pos ty sps hr he
    have hm : (make_sps_h264.fill ctx
        { make_sps_h264.head with level_idc := l }).max_num_ref_frames = u8 (dpb_frame ctx) := by
      simp only [make_sps_h264.fill, make_sps_h264.crop]
      split_ifs <;> rfl
    rw [hm, hd]
    split_ifs <;> decide
  · intro p b f w h d he
    rw [← hd]
    exact (guess_level_args lib ctx r p b f w h d hr he).2.2.2.2.2

/-- C3 on two contexts: with `gop_size = 30` the lookup receives 2 and the SPS carries 2,
with `gop_size = 1` both are 0. -/
theorem dpb_frame_by_gop_size_witness :
    dpb_frame ctx1282 = 2 ∧ dpb_frame { ctx1282 with gop_size := 1 } = 0 ∧
    dpb_frame { ctx1282 with gop_size := 0 } = 2 ∧
    dpb_frame { ctx1282 with gop_size := -1 } = 2 ∧
    sps1282.max_num_ref_frames = 2 :=
  ⟨(dpb_frame_by_gop_size sampleLibrary ctx1282).1,
    (dpb_frame_by_gop_size sampleLibrary { ctx1282 with gop_size := 1 }).1,
    (dpb_frame_by_gop_size sampleLibrary { ctx1282 with gop_size := 0 }).1,
    (dpb_frame_by_gop_size sampleLibrary { ctx1282 with gop_size := -1 }).1,
    ((dpb_frame_by_gop_size sampleLibrary ctx1282).2.2 _
      (by decide : make_sps_h264 sampleLibrary ctx1282 = some ⟨[0, 1, 2, 3],
        [Event.guess_level 100 10000000 60 1296 720 2,
          Event.insert_unit_content (-1) 7 sps1282, Event.cbs_init 27,
          Event.write_fragment_data]⟩)).1 (-1) 7 sps1282 (by decide)⟩

/-! ## Format selection -/

/-- C4: for a format other than 0, `make_sps` returns the empty buffer and its only step
is the warning line, so neither `make_sps_h264` nor any library call is reached; for
format 0 it returns what `make_sps_h264` returns on the same context. -/
theorem make_sps_by_format (lib : Library Ctx Packet H264RawSPS) (ctx : AVCodecContext)
    (format : Int) :
    (format ≠ 0 → make_sps lib ctx format = some ⟨[], [Event.log Severity.warning]⟩) ∧
    make_sps lib ctx 0 = make_sps_h264 lib ctx := by
  constructor
  · intro hf
    unfold make_sps
    rw [if_neg hf]
  · unfold make_sps
    rw [if_pos rfl]

/-- C4 at formats 1 and -1, with a library in which every call would succeed. -/
theorem make_sps_by_format_witness :
    make_sps sampleLibrary ctx1282 1 = some ⟨[], [Event.log Severity.warning]⟩ ∧
    make_sps sampleLibrary ctx1282 (-1) = some ⟨[], [Event.log Severity.warning]⟩ ∧
    make_sps sampleLibrary ctx1282 0 = make_sps_h264 sampleLibrary ctx1282 :=
  ⟨(make_sps_by_format sampleLibrary ctx1282 1).1 (by decide),
    (make_sps_by_format sampleLibrary ctx1282 (-1)).1 (by decide),
    (make_sps_by_format sampleLibrary ctx1282 0).2⟩

/-! ## Level selection -/

/-- The level stored by line 97 or 115 is the level of the SPS handed on. -/
theorem fill_level_idc (ctx : AVCodecContext) (sps : H264RawSPS) :
    (make_sps_h264.fill ctx sps).level_idc = sps.level_idc := by
  simp only [make_sps_h264.fill, make_sps_h264.crop]
  split_ifs <;> rfl

/-- With an unknown level and a frame-rate division that has a result, a run of
`make_sps_h264` starts with its one level lookup. -/
theorem make_sps_h264_level_rows (lib : Library Ctx Packet H264RawSPS) (ctx : AVCodecContext)
    (hl : ctx.level = FF_LEVEL_UNKNOWN) (hden : ctx.framerate.den ≠ 0)
    (hq : ¬ (ctx.framerate.num = -2147483648 ∧ ctx.framerate.den = -1)) :
    ∃ (r : Outcome H264RawSPS (List Nat)) (rest : List (Event H264RawSPS)),
      make_sps_h264 lib ctx = some r ∧
      r.events = Event.guess_level 100 ctx.bit_rate
        (Int.tdiv ctx.framerate.num ctx.framerate.den) (mb_width ctx) (mb_height ctx)
        (dpb_frame ctx) :: rest ∧
      ∀ p b f w h d : Int, Event.guess_level p b f w h d ∉ rest := by
  have hp : ((make_sps_h264.head.profile_idc : Nat) : Int) = 100 := by decide
  have hdiv := cdiv_defined _ _ hden hq
  cases hlev : lib.ff_h264_guess_level 100 ctx.bit_rate
      (Int.tdiv ctx.framerate.num ctx.framerate.den) (mb_width ctx) (mb_height ctx)
      (dpb_frame ctx) with
  | none =>
    refine ⟨⟨[], [Event.guess_level 100 ctx.bit_rate
      (Int.tdiv ctx.framerate.num ctx.framerate.den) (mb_width ctx) (mb_height ctx)
      (dpb_frame ctx), Event.log Severity.error]⟩, [Event.log Severity.error], ?_, rfl, ?_⟩
    · unfold make_sps_h264
      rw [if_neg (by simpa using hl)]
      simp only [hdiv, hp, hlev]
    · intro p b f w h d hmem
      simp at hmem
  | some level =>
    obtain ⟨rest, hev, hrest⟩ := write_events_head lib H264RawSPS.nal_unit_header
      (make_sps_h264.fill ctx { make_sps_h264.head with level_idc := level.level_idc })
      AV_CODEC_ID_H264
    refine ⟨make_sps_h264.finish lib ctx
        { make_sps_h264.head with level_idc := level.level_idc }
        [Event.guess_level 100 ctx.bit_rate
          (Int.tdiv ctx.framerate.num ctx.framerate.den) (mb_width ctx) (mb_height ctx)
          (dpb_frame ctx)], _, ?_, rfl, ?_⟩
    · unfold make_sps_h264
      rw [if_neg (by simpa using hl)]
      simp only [hdiv, hp, hlev]
    · intro p b f w h d hmem
      rw [hev] at hmem
      rcases List.mem_cons.1 hmem with h1 | h1
      · cases h1
      · rcases hrest _ h1 with h2 | h2 | h2 <;> cases h2

/-- C5, as amended: when `ctx.level` is known, `make_sps_h264` goes straight to the
serializer, never calls the level lookup, and the SPS carries `ctx.level` reduced modulo
256 (so `ctx.level` itself when it is between 0 and 255).  When the level is unknown and
the frame-rate division has a result, the first step is the one level lookup, made with
profile 100, the bit rate, the frame rate, `mb_width`, `mb_height` and `dpb_frame`; if it
returns a level the SPS handed on carries that level's `level_idc`, and if it returns
nothing the result is the empty buffer after an error line, without any serializer
step. -/
theorem make_sps_h264_level_selection (lib : Library Ctx Packet H264RawSPS)
    (ctx : AVCodecContext) :
    (ctx.level ≠ FF_LEVEL_UNKNOWN →
      ∃ (r : Outcome H264RawSPS (List Nat)) (sps : H264RawSPS)
          (rest : List (Event H264RawSPS)),
        make_sps_h264 lib ctx = some r ∧
        r.events = Event.insert_unit_content (-1) 7 sps :: rest ∧
        (sps.level_idc : Int) = ctx.level % 256 ∧
        (0 ≤ ctx.level → ctx.level ≤ 255 → (sps.level_idc : Int) = ctx.level) ∧
        ∀ p b f w h d : Int, Event.guess_level p b f w h d ∉ r.events) ∧
    (ctx.level = FF_LEVEL_UNKNOWN → ctx.framerate.den ≠ 0 →
      ¬ (ctx.framerate.num = -2147483648 ∧ ctx.framerate.den = -1) →
      (∀ level : H264LevelDescriptor,
        lib.ff_h264_guess_level 100 ctx.bit_rate
          (Int.tdiv ctx.framerate.num ctx.framerate.den) (mb_width ctx) (mb_height ctx)
          (dpb_frame ctx) = some level →
        ∃ (r : Outcome H264RawSPS (List Nat)) (sps : H264RawSPS)
            (rest : List (Event H264RawSPS)),
          make_sps_h264 lib ctx = some r ∧
          r.events = Event.guess_level 100 ctx.bit_rate
              (Int.tdiv ctx.framerate.num ctx.framerate.den) (mb_width ctx) (mb_height ctx)
              (dpb_frame ctx) :: Event.insert_unit_content (-1) 7 sps :: rest ∧
          sps.level_idc = level.level_idc ∧
          ∀ p b f w h d : Int,
            Event.guess_level p b f w h d ∉ Event.insert_unit_content (-1) 7 sps :: rest) ∧
      (lib.ff_h264_guess_level 100 ctx.bit_rate
          (Int.tdiv ctx.framerate.num ctx.framerate.den) (mb_width ctx) (mb_height ctx)
          (dpb_frame ctx) = none →
        make_sps_h264 lib ctx = some ⟨[],
          [Event.guess_level 100 ctx.bit_rate
            (Int.tdiv ctx.framerate.num ctx.framerate.den) (mb_width ctx) (mb_height ctx)
            (dpb_frame ctx), Event.log Severity.error]⟩)) := by
  have hp : ((make_sps_h264.head.profile_idc : Nat) : Int) = 100 := by decide
  constructor
  · intro hl
    obtain ⟨rest, hev, hrest⟩ := write_events_head lib H264RawSPS.nal_unit_header
      (make_sps_h264.fill ctx { make_sps_h264.head with level_idc := u8 ctx.level })
      AV_CODEC_ID_H264
    rw [fill_nal_unit_header] at hev
    refine ⟨make_sps_h264.finish lib ctx
        { make_sps_h264.head with level_idc := u8 ctx.level } [],
      make_sps_h264.fill ctx { make_sps_h264.head with level_idc := u8 ctx.level }, rest,
      ?_, ?_, ?_, ?_, ?_⟩
    · unfold make_sps_h264
      rw [if_pos hl]
    · simp only [make_sps_h264.finish, List.nil_append]
      exact hev
    · rw [fill_level_idc]
      show ((u8 ctx.level : Nat) : Int) = ctx.level % 256
      unfold u8
      omega
    · intro h0 h1
      rw [fill_level_idc]
      exact u8_of_range _ h0 (by omega)
    · intro p b f w h d hmem
      simp only [make_sps_h264.finish, List.nil_append] at hmem
      rw [hev] at hmem
      rcases List.mem_cons.1 hmem with h1 | h1
      · cases h1
      · rcases hrest _ h1 with h2 | h2 | h2 <;> cases h2
  · intro hl hden hq
    have hdiv := cdiv_defined _ _ hden hq
    constructor
    · intro level hlev
      obtain ⟨rest, hev, hrest⟩ := write_events_head lib H264RawSPS.nal_unit_header
        (make_sps_h264.fill ctx { make_sps_h264.head with level_idc := level.level_idc })
        AV_CODEC_ID_H264
      rw [fill_nal_unit_header] at hev
      refine ⟨make_sps_h264.finish lib ctx
          { make_sps_h264.head with level_idc := level.level_idc }
          [Event.guess_level 100 ctx.bit_rate
            (Int.tdiv ctx.framerate.num ctx.framerate.den) (mb_width ctx) (mb_height ctx)
            (dpb_frame ctx)],
        make_sps_h264.fill ctx { make_sps_h264.head with level_idc := level.level_idc },
        rest, ?_, ?_, ?_, ?_⟩
      · unfold make_sps_h264
        rw [if_neg (by simpa using hl)]
        simp only [hdiv, hp, hlev]
      · simp only [make_sps_h264.finish, List.singleton_append]
        rw [hev]
        rfl
      · rw [fill_level_idc]
      · intro p b f w h d hmem
        rcases List.mem_cons.1 hmem with h1 | h1
        · cases h1
        · rcases hrest _ h1 with h2 | h2 | h2 <;> cases h2
    · intro hlev
      unfold make_sps_h264
      rw [if_neg (by simpa using hl)]
      simp only [hdiv, hp, hlev]

/-- C5, as amended, on three runs: a known level 41 is stored and no lookup is made; an
unknown level with a level table answering 3.1 stores 31 after one lookup; an unknown
level with a table that has no level for the bit rate gives the empty buffer and no
serializer step. -/
theorem make_sps_h264_level_selection_witness :
    (∃ (r : Outcome H264RawSPS (List Nat)) (sps : H264RawSPS)
        (rest : List (Event H264RawSPS)),
      make_sps_h264 sampleLibrary { ctx1282 with level := 41 } = some r ∧
      r.events = Event.insert_unit_content (-1) 7 sps :: rest ∧
      (sps.level_idc : Int) = 41 ∧
      ∀ p b f w h d : Int, Event.guess_level p b f w h d ∉ r.events) ∧
    (∃ (r : Outcome H264RawSPS (List Nat)) (sps : H264RawSPS)
        (rest : List (Event H264RawSPS)),
      make_sps_h264 sampleLibrary ctx1282 = some r ∧
      r.events = Event.guess_level 100 10000000 60 1296 720 2 ::
        Event.insert_unit_content (-1) 7 sps :: rest ∧
      sps.level_idc = 31) ∧
    make_sps_h264 cappedLibrary ctx720pFast = some ⟨[],
      [Event.guess_level 100 2000000000 60 1280 720 2, Event.log Severity.error]⟩ := by
  refine ⟨?_, ?_, ?_⟩
  · obtain ⟨r, sps, rest, h1, h2, _, h4, h5⟩ :=
      (make_sps_h264_level_selection sampleLibrary { ctx1282 with level := 41 }).1
        (by decide)
    exact ⟨r, sps, rest, h1, h2, h4 (by decide) (by decide), h5⟩
  · obtain ⟨r, sps, rest, h1, h2, h3, _⟩ :=
      ((make_sps_h264_level_selection sampleLibrary ctx1282).2 rfl (by decide)
        (by decide)).1 ⟨31⟩ rfl
    exact ⟨r, sps, rest, h1, h2, h3⟩
  · exact ((make_sps_h264_level_selection cappedLibrary ctx720pFast).2 rfl (by decide)
      (by decide)).2 rfl

/-- C5, as stated, fails twice: a known level 256 is stored as `level_idc = 0`, and with
an unknown level and the frame rate 60/0 the division has no result, so the function
makes no lookup and returns nothing. -/
theorem make_sps_h264_level_counterexample :
    make_sps_h264 sampleLibrary { ctx1282 with level := 256 } = some ⟨[0, 1, 2, 3],
      [Event.insert_unit_content (-1) 7 { sps1282 with level_idc := 0 }, Event.cbs_init 27,
        Event.write_fragment_data]⟩ ∧
    (({ sps1282 with level_idc := 0 } : H264RawSPS).level_idc : Int) ≠ 256 ∧
    make_sps_h264 sampleLibrary { ctx1282 with framerate := ⟨60, 0⟩ } = none := by
  refine ⟨by decide, by decide, by decide⟩

/-! ## The 1280 by 720 scenario -/

/-- The picture width in macroblocks stored by line 127. -/
theorem fill_pic_width (ctx : AVCodecContext) (sps : H264RawSPS) :
    (make_sps_h264.fill ctx sps).pic_width_in_mbs_minus1 =
      u16 (wrap32 (Int.tdiv (mb_width ctx) 16 - 1)) := by
  simp only [make_sps_h264.fill, make_sps_h264.crop]
  split_ifs <;> rfl

/-- The picture height in map units stored by line 128. -/
theorem fill_pic_height (ctx : AVCodecContext) (sps : H264RawSPS) :
    (make_sps_h264.fill ctx sps).pic_height_in_map_units_minus1 =
      u16 (wrap32 (Int.tdiv (mb_height ctx) 16 - 1)) := by
  simp only [make_sps_h264.fill, make_sps_h264.crop]
  split_ifs <;> rfl

/-- C6, as amended: for width 1280, height 720, `gop_size` 30, an unknown level and a
frame rate whose division has a result, the aligned size is 1280 by 720, `dpb_frame` is
2, the first step is the one level lookup, made with profile 100, the bit rate, the frame
rate and the picture size in samples, 1280 and 720, with depth 2; every SPS handed to the
serializer has no cropping and carries the size in macroblocks, 80 by 45, as
`pic_width_in_mbs_minus1 = 79` and `pic_height_in_map_units_minus1 = 44`. -/
theorem make_sps_h264_720p_lookup (lib : Library Ctx Packet H264RawSPS)
    (ctx : AVCodecContext) (hw : ctx.width = 1280) (hh : ctx.height = 720)
    (hg : ctx.gop_size = 30) (hl : ctx.level = FF_LEVEL_UNKNOWN)
    (hden : ctx.framerate.den ≠ 0)
    (hq : ¬ (ctx.framerate.num = -2147483648 ∧ ctx.framerate.den = -1)) :
    mb_width ctx = 1280 ∧ mb_height ctx = 720 ∧ dpb_frame ctx = 2 ∧
    ∃ (r : Outcome H264RawSPS (List Nat)) (rest : List (Event H264RawSPS)),
      make_sps_h264 lib ctx = some r ∧
      r.events = Event.guess_level 100 ctx.bit_rate
        (Int.tdiv ctx.framerate.num ctx.framerate.den) 1280 720 2 :: rest ∧
      (∀ p b f w h d : Int, Event.guess_level p b f w h d ∉ rest) ∧
      ∀ (pos : Int) (ty : Nat) (sps : H264RawSPS),
        Event.insert_unit_content pos ty sps ∈ r.events →
        sps.frame_cropping_flag = 0 ∧ sps.frame_crop_left_offset = 0 ∧
        sps.frame_crop_right_offset = 0 ∧ sps.frame_crop_top_offset = 0 ∧
        sps.frame_crop_bottom_offset = 0 ∧
        sps.pic_width_in_mbs_minus1 = 79 ∧ sps.pic_height_in_map_units_minus1 = 44 := by
  have hmw : mb_width ctx = 1280 := by
    unfold mb_width
    rw [hw]
    decide
  have hmh : mb_height ctx = 720 := by
    unfold mb_height
    rw [hh]
    decide
  have hd : dpb_frame ctx = 2 := by
    unfold dpb_frame
    rw [hg]
    decide
  refine ⟨hmw, hmh, hd, ?_⟩
  have hsel := (make_sps_h264_level_rows lib ctx hl hden hq)
  rw [hmw, hmh, hd] at hsel
  obtain ⟨r, rest, hr, hev, hrest⟩ := hsel
  refine ⟨r, rest, hr, hev, hrest, ?_⟩
  intro pos ty sps he
  obtain ⟨l, rfl⟩ := handed_sps lib ctx r pos ty sps hr he
  refine ⟨?_, ?_, ?_, ?_, ?_, ?_, ?_⟩
  · simp only [make_sps_h264.fill, make_sps_h264.crop, hmw, hmh, hw, hh]
    rfl
  · simp only [make_sps_h264.fill, make_sps_h264.crop, hmw, hmh, hw, hh]
    rfl
  · simp only [make_sps_h264.fill, make_sps_h264.crop, hmw, hmh, hw, hh]
    rfl
  · simp only [make_sps_h264.fill, make_sps_h264.crop, hmw, hmh, hw, hh]
    rfl
  · simp only [make_sps_h264.fill, make_sps_h264.crop, hmw, hmh, hw, hh]
    rfl
  · rw [fill_pic_width, hmw]
    decide
  · rw [fill_pic_height, hmh]
    decide

/-- C6, as amended, at 1280 by 720 and 60 frames per second: the lookup receives 1280 and
720, and the SPS carries 79 and 44. -/
theorem make_sps_h264_720p_lookup_witness :
    mb_width ctx720p = 1280 ∧ mb_height ctx720p = 720 ∧ dpb_frame ctx720p = 2 ∧
    ∃ (r : Outcome H264RawSPS (List Nat)) (rest : List (Event H264RawSPS)),
      make_sps_h264 sampleLibrary ctx720p = some r ∧
      r.events = Event.guess_level 100 10000000 60 1280 720 2 :: rest ∧
      (∀ p b f w h d : Int, Event.guess_level p b f w h d ∉ rest) ∧
      ∀ (pos : Int) (ty : Nat) (sps : H264RawSPS),
        Event.insert_unit_content pos ty sps ∈ r.events →
        sps.frame_cropping_flag = 0 ∧ sps.frame_crop_left_offset = 0 ∧
        sps.frame_crop_right_offset = 0 ∧ sps.frame_crop_top_offset = 0 ∧
        sps.frame_crop_bottom_offset = 0 ∧
        sps.pic_width_in_mbs_minus1 = 79 ∧ sps.pic_height_in_map_units_minus1 = 44 :=
  make_sps_h264_720p_lookup sampleLibrary ctx720p rfl rfl rfl rfl (by decide) (by decide)

/-- C6, as stated, fails: at 1280 by 720 the level lookup is made with the picture size
1280 and 720, and no lookup with the size 80 and 45 is ever made. -/
theorem make_sps_h264_720p_counterexample :
    make_sps_h264 sampleLibrary ctx720p = some ⟨[0, 1, 2, 3],
      [Event.guess_level 100 10000000 60 1280 720 2,
        Event.insert_unit_content (-1) 7 sps720p, Event.cbs_init 27,
        Event.write_fragment_data]⟩ ∧
    ¬ ∃ (r : Outcome H264RawSPS (List Nat)) (p b f d : Int),
      make_sps_h264 sampleLibrary ctx720p = some r ∧
      Event.guess_level p b f 80 45 d ∈ r.events := by
  refine ⟨by decide, ?_⟩
  rintro ⟨r, p, b, f, d, hr, he⟩
  have h := (guess_level_args sampleLibrary ctx720p r p b f 80 45 d hr he).2.2.2.1
  revert h
  decide

/-! ## The VUI -/

/-- The VUI of a completed SPS is the VUI block applied to the VUI it started from. -/
theorem fill_vui (ctx : AVCodecContext) (sps : H264RawSPS) :
    (make_sps_h264.fill ctx sps).vui = make_sps_h264.vui ctx sps.vui ∧
      (make_sps_h264.fill ctx sps).vui_parameters_present_flag = 1 := by
  simp only [make_sps_h264.fill, make_sps_h264.crop, make_sps_h264.frame]
  split_ifs <;> exact ⟨rfl, rfl⟩

/-- C8, as amended: every SPS that `make_sps_h264` hands to the serializer has
`vui_parameters_present_flag = 1`, `video_format = 5`, `video_full_range_flag` 1 exactly
when `ctx.color_range` is the full (JPEG) range and 0 otherwise, the colour primaries,
transfer characteristics and matrix coefficients of the context reduced modulo 256 (so
unchanged when they are between 0 and 255), `bitstream_restriction_flag = 1`, both
`log2_max_mv_length` fields 15, `max_num_reorder_frames = 1` and
`max_dec_frame_buffering = 2`, whatever `gop_size` is. -/
theorem make_sps_h264_vui (lib : Library Ctx Packet H264RawSPS) (ctx : AVCodecContext)
    (r : Outcome H264RawSPS (List Nat)) (pos : Int) (ty : Nat) (sps : H264RawSPS)
    (hr : make_sps_h264 lib ctx = some r)
    (he : Event.insert_unit_content pos ty sps ∈ r.events) :
    sps.vui_parameters_present_flag = 1 ∧ sps.vui.video_format = 5 ∧
    (sps.vui.video_full_range_flag = 1 ↔ ctx.color_range = AVCOL_RANGE_JPEG) ∧
    (sps.vui.video_full_range_flag = 0 ↔ ctx.color_range ≠ AVCOL_RANGE_JPEG) ∧
    ((sps.vui.colour_primaries : Int) = ctx.color_primaries % 256 ∧
      (0 ≤ ctx.color_primaries → ctx.color_primaries ≤ 255 →
        (sps.vui.colour_primaries : Int) = ctx.color_primaries)) ∧
    ((sps.vui.transfer_characteristics : Int) = ctx.color_trc % 256 ∧
      (0 ≤ ctx.color_trc → ctx.color_trc ≤ 255 →
        (sps.vui.transfer_characteristics : Int) = ctx.color_trc)) ∧
    ((sps.vui.matrix_coefficients : Int) = ctx.colorspace % 256 ∧
      (0 ≤ ctx.colorspace → ctx.colorspace ≤ 255 →
        (sps.vui.matrix_coefficients : Int) = ctx.colorspace)) ∧
    sps.vui.bitstream_restriction_flag = 1 ∧
    sps.vui.log2_max_mv_length_horizontal = 15 ∧
    sps.vui.log2_max_mv_length_vertical = 15 ∧
    sps.vui.max_num_reorder_frames = 1 ∧ sps.vui.max_dec_frame_buffering = 2 := by
  obtain ⟨l, rfl⟩ := handed_sps lib ctx r pos ty sps hr he
  have hcode : ∀ c : Int, ((u8 c : Nat) : Int) = c % 256 ∧
      (0 ≤ c → c ≤ 255 → ((u8 c : Nat) : Int) = c) := by
    intro c
    unfold u8
    constructor
    · omega
    · intro h0 h1
      omega
  rw [(fill_vui ctx _).1]
  refine ⟨(fill_vui ctx _).2, rfl, ?_, ?_, hcode _, hcode _, hcode _, rfl, rfl, rfl, rfl, rfl⟩
  · show (if ctx.color_range = AVCOL_RANGE_JPEG then 1 else 0) = 1 ↔ _
    split_ifs with h <;> simp [h]
  · show (if ctx.color_range = AVCOL_RANGE_JPEG then 1 else 0) = 0 ↔ _
    split_ifs with h <;> simp [h]

/-- C8, as amended, on the SPS built for 1282 by 720 with the full colour range, primaries
1, transfer 13 and matrix 5. -/
theorem make_sps_h264_vui_witness :
    sps1282.vui_parameters_present_flag = 1 ∧ sps1282.vui.video_format = 5 ∧
    sps1282.vui.video_full_range_flag = 1 ∧
    (sps1282.vui.colour_primaries : Int) = 1 ∧
    (sps1282.vui.transfer_characteristics : Int) = 13 ∧
    (sps1282.vui.matrix_coefficients : Int) = 5 ∧
    sps1282.vui.bitstream_restriction_flag = 1 ∧
    sps1282.vui.log2_max_mv_length_horizontal = 15 ∧
    sps1282.vui.log2_max_mv_length_vertical = 15 ∧
    sps1282.vui.max_num_reorder_frames = 1 ∧ sps1282.vui.max_dec_frame_buffering = 2 := by
  obtain ⟨h1, h2, h3, _, h5, h6, h7, h8, h9, h10, h11, h12⟩ :=
    make_sps_h264_vui sampleLibrary ctx1282 _ (-1) 7 sps1282
      (by decide : make_sps_h264 sampleLibrary ctx1282 = some ⟨[0, 1, 2, 3],
        [Event.guess_level 100 10000000 60 1296 720 2,
          Event.insert_unit_content (-1) 7 sps1282, Event.cbs_init 27,
          Event.write_fragment_data]⟩)
      (by decide)
  exact ⟨h1, h2, h3.2 rfl, h5.2 (by decide) (by decide), h6.2 (by decide) (by decide),
    h7.2 (by decide) (by decide), h8, h9, h10, h11, h12⟩

/-- C8, as stated, fails: the colour fields of the context have the size of an `int` and
the fields of the VUI are 8 bits wide, so the colour primaries 256, the transfer
characteristics 257 and the matrix coefficients -1 are stored as 0, 1 and 255. -/
theorem make_sps_h264_vui_counterexample :
    ∃ sps : H264RawSPS,
      make_sps_h264 sampleLibrary ctxWideColour = some ⟨[0, 1, 2, 3],
        [Event.guess_level 100 10000000 60 1296 720 2,
          Event.insert_unit_content (-1) 7 sps, Event.cbs_init 27,
          Event.write_fragment_data]⟩ ∧
      sps.vui.colour_primaries = 0 ∧ sps.vui.transfer_characteristics = 1 ∧
      sps.vui.matrix_coefficients = 255 ∧
      (sps.vui.colour_primaries : Int) ≠ ctxWideColour.color_primaries ∧
      (sps.vui.transfer_characteristics : Int) ≠ ctxWideColour.color_trc ∧
      (sps.vui.matrix_coefficients : Int) ≠ ctxWideColour.colorspace :=
  ⟨{ sps1282 with
      vui := { sps1282.vui with
        colour_primaries := 0, transfer_characteristics := 1, matrix_coefficients := 255 } },
    by decide, by decide, by decide, by decide, by decide, by decide, by decide⟩

/-! ## `write` -/

/-- C9: `write` returns the empty buffer when the insertion returns a negative status, and
then makes no fragment write; it returns the empty buffer when the fragment write returns
a negative status; otherwise the buffer has exactly `data_size` bytes, byte `i` being
byte `i` of the fragment data, whatever `data_bit_padding` is. -/
theorem write_result (lib : Library Ctx Packet U) (hdr : U → H264RawNALUnitHeader) (uh : U)
    (codec_id : Int) :
    ((lib.ff_cbs_insert_unit_content frag_t.new (-1) (hdr uh).nal_unit_type uh).1 < 0 →
      (write lib hdr uh codec_id).value = [] ∧
      Event.write_fragment_data ∉ (write lib hdr uh codec_id).events) ∧
    (0 ≤ (lib.ff_cbs_insert_unit_content frag_t.new (-1) (hdr uh).nal_unit_type uh).1 →
      (lib.ff_cbs_write_fragment_data (lib.ff_cbs_init codec_id).2
        (lib.ff_cbs_insert_unit_content frag_t.new (-1) (hdr uh).nal_unit_type uh).2).1 < 0 →
      (write lib hdr uh codec_id).value = []) ∧
    (0 ≤ (lib.ff_cbs_insert_unit_content frag_t.new (-1) (hdr uh).nal_unit_type uh).1 →
      0 ≤ (lib.ff_cbs_write_fragment_data (lib.ff_cbs_init codec_id).2
        (lib.ff_cbs_insert_unit_content frag_t.new (-1) (hdr uh).nal_unit_type uh).2).1 →
      (write lib hdr uh codec_id).value.length =
        (lib.ff_cbs_write_fragment_data (lib.ff_cbs_init codec_id).2
          (lib.ff_cbs_insert_unit_content frag_t.new (-1) (hdr uh).nal_unit_type
            uh).2).2.data_size ∧
      ∀ i : Nat, i < (lib.ff_cbs_write_fragment_data (lib.ff_cbs_init codec_id).2
          (lib.ff_cbs_insert_unit_content frag_t.new (-1) (hdr uh).nal_unit_type
            uh).2).2.data_size →
        (write lib hdr uh codec_id).value[i]? =
          some ((lib.ff_cbs_write_fragment_data (lib.ff_cbs_init codec_id).2
            (lib.ff_cbs_insert_unit_content frag_t.new (-1) (hdr uh).nal_unit_type
              uh).2).2.data i)) := by
  refine ⟨?_, ?_, ?_⟩
  · intro h
    unfold write
    dsimp only
    rw [if_pos h]
    exact ⟨rfl, by simp⟩
  · intro h1 h2
    unfold write
    dsimp only
    rw [if_neg (not_lt.2 h1), if_pos h2]
  · intro h1 h2
    unfold write
    dsimp only
    rw [if_neg (not_lt.2 h1), if_neg (not_lt.2 h2)]
    refine ⟨by simp, ?_⟩
    intro i hi
    simp [List.getElem?_map, List.getElem?_range hi]

/-- C9 on three libraries: one that writes the four bytes `0, 1, 2, 3` with three padding
bits, one whose insertion fails and one whose fragment write fails. -/
theorem write_result_witness :
    (write sampleLibrary H264RawSPS.nal_unit_header sps1282 27).value.length = 4 ∧
    (∀ i : Nat, i < 4 →
      (write sampleLibrary H264RawSPS.nal_unit_header sps1282 27).value[i]? = some i) ∧
    ((write failedInsertLibrary H264RawSPS.nal_unit_header sps1282 27).value = [] ∧
      Event.write_fragment_data ∉
        (write failedInsertLibrary H264RawSPS.nal_unit_header sps1282 27).events) ∧
    (write failedWriteLibrary H264RawSPS.nal_unit_header sps1282 27).value = [] :=
  ⟨((write_result sampleLibrary H264RawSPS.nal_unit_header sps1282 27).2.2 (by decide)
      (by decide)).1,
    ((write_result sampleLibrary H264RawSPS.nal_unit_header sps1282 27).2.2 (by decide)
      (by decide)).2,
    (write_result failedInsertLibrary H264RawSPS.nal_unit_header sps1282 27).1 (by decide),
    (write_result failedWriteLibrary H264RawSPS.nal_unit_header sps1282 27).2.1 (by decide)
      (by decide)⟩

/-! ## `validate_sps` -/

/-- What `validate_sps` returns, in terms of the two statuses and the parsed flag. -/
theorem validate_sps_value (lib : Library Ctx Packet U) (packet : Packet) (codec_id : Int) :
    (validate_sps lib packet codec_id).map (fun r => r.value) =
      if init_status lib codec_id ≠ 0 then some false
      else if parse_status lib packet codec_id < 0 then some false
      else (parsed_vui_flag lib packet codec_id).map (fun n => decide (n ≠ 0)) := by
  unfold validate_sps init_status parse_status parsed_vui_flag
  dsimp only
  split_ifs with h1 h2 h3
  · rfl
  · rfl
  · cases (lib.priv_h264 (lib.ff_cbs_read_packet (lib.ff_cbs_init codec_id).2
        frag_t.new packet).2.1).active_sps with
    | none => rfl
    | some sps =>
      dsimp only [Option.map]
      split_ifs with h4
      · simp [h4]
      · simp [h4]
  · cases (lib.priv_h265 (lib.ff_cbs_read_packet (lib.ff_cbs_init codec_id).2
        frag_t.new packet).2.1).active_sps with
    | none => rfl
    | some sps => rfl

/-- C7: provided the flag the parser left behind is a single bit, `validate_sps` returns
true exactly when the context initialisation returns 0, the packet parses with a
non-negative status and the active SPS of the codec has `vui_parameters_present_flag = 1`;
it returns false when the initialisation fails, when the parse status is negative, and
when the flag is 0.  The codec identifier is arbitrary, so this holds for H.264 and for
H.265. -/
theorem validate_sps_result (lib : Library Ctx Packet U) (packet : Packet) (codec_id : Int)
    (hbit : ∀ n : Nat, parsed_vui_flag lib packet codec_id = some n → n ≤ 1) :
    ((validate_sps lib packet codec_id).map (fun r => r.value) = some true ↔
      init_status lib codec_id = 0 ∧ 0 ≤ parse_status lib packet codec_id ∧
        parsed_vui_flag lib packet codec_id = some 1) ∧
    (init_status lib codec_id ≠ 0 →
      (validate_sps lib packet codec_id).map (fun r => r.value) = some false) ∧
    (init_status lib codec_id = 0 → parse_status lib packet codec_id < 0 →
      (validate_sps lib packet codec_id).map (fun r => r.value) = some false) ∧
    (init_status lib codec_id = 0 → 0 ≤ parse_status lib packet codec_id →
      parsed_vui_flag lib packet codec_id = some 0 →
      (validate_sps lib packet codec_id).map (fun r => r.value) = some false) := by
  rw [validate_sps_value]
  generalize init_status lib codec_id = a
  generalize parse_status lib packet codec_id = b
  generalize parsed_vui_flag lib packet codec_id = f at hbit
  refine ⟨?_, ?_, ?_, ?_⟩
  · constructor
    · intro h
      split_ifs at h with h1 h2
      · cases h
      · cases h
      · cases f with
        | none => cases h
        | some n =>
          have hn := hbit n rfl
          have h3 : n ≠ 0 := by simpa using h
          have h4 : n = 1 := by omega
          exact ⟨not_not.1 h1, not_lt.1 h2, by rw [h4]⟩
    · rintro ⟨h1, h2, h3⟩
      rw [if_neg (not_not.2 h1), if_neg (not_lt.2 h2), h3]
      rfl
  · intro h1
    rw [if_pos h1]
  · intro h1 h2
    rw [if_neg (not_not.2 h1), if_pos h2]
  · intro h1 h2 h3
    rw [if_neg (not_not.2 h1), if_neg (not_lt.2 h2), h3]
    rfl

/-- C7 for H.264 and H.265: with a parsed flag 1 the result is true, with a parsed flag 0,
a failed parse or a failed initialisation it is false. -/
theorem validate_sps_result_witness :
    ((validate_sps (parserLibrary 1) 0 AV_CODEC_ID_H264).map (fun r => r.value) = some true ∧
      (validate_sps (parserLibrary 1) 0 AV_CODEC_ID_H265).map (fun r => r.value) =
        some true) ∧
    ((validate_sps (parserLibrary 0) 0 AV_CODEC_ID_H264).map (fun r => r.value) =
        some false ∧
      (validate_sps (parserLibrary 0) 0 AV_CODEC_ID_H265).map (fun r => r.value) =
        some false) ∧
    ((validate_sps (parserLibrary 1) (-1) AV_CODEC_ID_H264).map (fun r => r.value) =
        some false ∧
      (validate_sps (parserLibrary 1) (-1) AV_CODEC_ID_H265).map (fun r => r.value) =
        some false) ∧
    (validate_sps (parserLibrary 1) 0 0).map (fun r => r.value) = some false :=
  ⟨⟨(validate_sps_result (parserLibrary 1) 0 AV_CODEC_ID_H264
        (fun n h => by cases h; decide)).1.2 (by decide),
      (validate_sps_result (parserLibrary 1) 0 AV_CODEC_ID_H265
        (fun n h => by cases h; decide)).1.2 (by decide)⟩,
    ⟨(validate_sps_result (parserLibrary 0) 0 AV_CODEC_ID_H264
        (fun n h => by cases h; decide)).2.2.2 (by decide) (by decide) (by decide),
      (validate_sps_result (parserLibrary 0) 0 AV_CODEC_ID_H265
        (fun n h => by cases h; decide)).2.2.2 (by decide) (by decide) (by decide)⟩,
    ⟨(validate_sps_result (parserLibrary 1) (-1) AV_CODEC_ID_H264
        (fun n h => by cases h; decide)).2.2.1 (by decide) (by decide),
      (validate_sps_result (parserLibrary 1) (-1) AV_CODEC_ID_H265
        (fun n h => by cases h; decide)).2.2.1 (by decide) (by decide)⟩,
    (validate_sps_result (parserLibrary 1) 0 0
      (fun n h => by cases h; decide)).2.1 (by decide)⟩

/-! ## The size a decoder derives -/

/-- The right and bottom crop offsets of a completed SPS. -/
theorem fill_crop_offsets (ctx : AVCodecContext) (sps : H264RawSPS) :
    (make_sps_h264.fill ctx sps).frame_crop_right_offset =
      (if ctx.width ≠ mb_width ctx ∨ ctx.height ≠ mb_height ctx then
        u16 (Int.tdiv (wrap32 (mb_width ctx - ctx.width)) 2)
      else sps.frame_crop_right_offset) ∧
    (make_sps_h264.fill ctx sps).frame_crop_bottom_offset =
      (if ctx.width ≠ mb_width ctx ∨ ctx.height ≠ mb_height ctx then
        u16 (Int.tdiv (wrap32 (mb_height ctx - ctx.height)) 2)
      else sps.frame_crop_bottom_offset) := by
  simp only [make_sps_h264.fill, make_sps_h264.crop, make_sps_h264.frame]
  split_ifs <;> exact ⟨rfl, rfl⟩

/-- For a dimension from 1 to 1048576, the stored macroblock count and crop offset give
the dimension back when it is even and one more when it is odd. -/
theorem visible_dimension (x m : Int) (c : Nat) (hx0 : 0 < x) (hx1 : x ≤ 1048576)
    (hm : m = x + 15 - (x + 15) % 16)
    (hc : (x = m ∧ c = 0) ∨ c = u16 (Int.tdiv (wrap32 (m - x)) 2)) :
    16 * ((u16 (wrap32 (Int.tdiv m 16 - 1)) : Int) + 1) - 2 * (c : Int) =
        (if x % 2 = 0 then x else x + 1) ∧ c ≤ 7 := by
  have h1 : Int.tdiv m 16 = m / 16 := Int.tdiv_eq_ediv (by omega) (by omega)
  have h2 : Int.tdiv (wrap32 (m - x)) 2 = (m - x) / 2 := by
    rw [wrap32_of_range _ (by omega) (by omega), Int.tdiv_eq_ediv (by omega) (by omega)]
  rw [h1, wrap32_of_range _ (by omega) (by omega), u16_of_range _ (by omega) (by omega)]
  rw [h2] at hc
  have h3 : ((u16 ((m - x) / 2) : Nat) : Int) = (m - x) / 2 :=
    u16_of_range _ (by omega) (by omega)
  rcases hc with ⟨hc1, hc2⟩ | hc
  · subst hc2
    split_ifs <;> omega
  · subst hc
    split_ifs <;> omega

/-- C10, as amended: for a context whose width and height are from 1 to 1048576, every
SPS that `make_sps_h264` hands to the serializer describes, with cropping units of 2
samples, a visible picture of `16 * (pic_width_in_mbs_minus1 + 1) -
2 * frame_crop_right_offset` by `16 * (pic_height_in_map_units_minus1 + 1) -
2 * frame_crop_bottom_offset` samples, which is the requested width (height) when that is
even and one more when it is odd; both offsets are at most 7. -/
theorem make_sps_h264_visible_size (lib : Library Ctx Packet H264RawSPS)
    (ctx : AVCodecContext)
    (hw0 : 0 < ctx.width) (hw1 : ctx.width ≤ 1048576)
    (hh0 : 0 < ctx.height) (hh1 : ctx.height ≤ 1048576)
    (r : Outcome H264RawSPS (List Nat)) (pos : Int) (ty : Nat) (sps : H264RawSPS)
    (hr : make_sps_h264 lib ctx = some r)
    (he : Event.insert_unit_content pos ty sps ∈ r.events) :
    (16 * ((sps.pic_width_in_mbs_minus1 : Int) + 1) - 2 * (sps.frame_crop_right_offset : Int) =
      if ctx.width % 2 = 0 then ctx.width else ctx.width + 1) ∧
    (16 * ((sps.pic_height_in_map_units_minus1 : Int) + 1) -
        2 * (sps.frame_crop_bottom_offset : Int) =
      if ctx.height % 2 = 0 then ctx.height else ctx.height + 1) ∧
    sps.frame_crop_right_offset ≤ 7 ∧ sps.frame_crop_bottom_offset ≤ 7 := by
  obtain ⟨l, rfl⟩ := handed_sps lib ctx r pos ty sps hr he
  have hmw := mb_width_of_range ctx (by omega) (by omega)
  have hmh := mb_height_of_range ctx (by omega) (by omega)
  obtain ⟨hcr, hcb⟩ := fill_crop_offsets ctx { make_sps_h264.head with level_idc := l }
  have hr0 : ({ make_sps_h264.head with level_idc := l } : H264RawSPS).frame_crop_right_offset
      = 0 := rfl
  have hb0 : ({ make_sps_h264.head with level_idc := l } : H264RawSPS).frame_crop_bottom_offset
      = 0 := rfl
  rw [hr0] at hcr
  rw [hb0] at hcb
  rw [fill_pic_width, fill_pic_height]
  have hW := visible_dimension ctx.width (mb_width ctx)
    (make_sps_h264.fill ctx { make_sps_h264.head with level_idc := l }).frame_crop_right_offset
    hw0 hw1 hmw (by
      rw [hcr]
      split_ifs with hc
      · exact Or.inr rfl
      · exact Or.inl ⟨by omega, rfl⟩)
  have hH := visible_dimension ctx.height (mb_height ctx)
    (make_sps_h264.fill ctx { make_sps_h264.head with level_idc := l }).frame_crop_bottom_offset
    hh0 hh1 hmh (by
      rw [hcb]
      split_ifs with hc
      · exact Or.inr rfl
      · exact Or.inl ⟨by omega, rfl⟩)
  exact ⟨hW.1, hH.1, hW.2, hH.2⟩

/-- C10, as amended, at 1282 by 720 and at 1281 by 719. -/
theorem make_sps_h264_visible_size_witness :
    ((16 * ((sps1282.pic_width_in_mbs_minus1 : Int) + 1) -
        2 * (sps1282.frame_crop_right_offset : Int) = 1282) ∧
      (16 * ((sps1282.pic_height_in_map_units_minus1 : Int) + 1) -
        2 * (sps1282.frame_crop_bottom_offset : Int) = 720) ∧
      sps1282.frame_crop_right_offset ≤ 7 ∧ sps1282.frame_crop_bottom_offset ≤ 7) ∧
    ∀ (r : Outcome H264RawSPS (List Nat)) (sps : H264RawSPS),
      make_sps_h264 sampleLibrary { ctx1282 with width := 1281, height := 719 } = some r →
      Event.insert_unit_content (-1) 7 sps ∈ r.events →
      (16 * ((sps.pic_width_in_mbs_minus1 : Int) + 1) -
        2 * (sps.frame_crop_right_offset : Int) = 1282) ∧
      (16 * ((sps.pic_height_in_map_units_minus1 : Int) + 1) -
        2 * (sps.frame_crop_bottom_offset : Int) = 720) :=
  ⟨make_sps_h264_visible_size sampleLibrary ctx1282 (by decide) (by decide) (by decide)
      (by decide) _ (-1) 7 sps1282
      (by decide : make_sps_h264 sampleLibrary ctx1282 = some ⟨[0, 1, 2, 3],
        [Event.guess_level 100 10000000 60 1296 720 2,
          Event.insert_unit_content (-1) 7 sps1282, Event.cbs_init 27,
          Event.write_fragment_data]⟩)
      (by decide),
    fun r sps hr he =>
      ⟨(make_sps_h264_visible_size sampleLibrary { ctx1282 with width := 1281, height := 719 }
        (by decide) (by decide) (by decide) (by decide) r (-1) 7 sps hr he).1,
      (make_sps_h264_visible_size sampleLibrary { ctx1282 with width := 1281, height := 719 }
        (by decide) (by decide) (by decide) (by decide) r (-1) 7 sps hr he).2.1⟩⟩

/-- C10, as stated, fails inside the `int` range: for the width 1048592, which is 65537
macroblocks, the 16-bit field `pic_width_in_mbs_minus1` holds 0 and the SPS describes a
picture 16 samples wide; for the width 2147483647 the alignment leaves the `int` range
and the SPS describes a picture 1048576 samples wide. -/
theorem make_sps_h264_visible_size_counterexample :
    (∃ sps : H264RawSPS,
      make_sps_h264 sampleLibrary { ctx1282 with width := 1048592 } = some ⟨[0, 1, 2, 3],
        [Event.guess_level 100 10000000 60 1048592 720 2,
          Event.insert_unit_content (-1) 7 sps, Event.cbs_init 27,
          Event.write_fragment_data]⟩ ∧
      16 * ((sps.pic_width_in_mbs_minus1 : Int) + 1) -
        2 * (sps.frame_crop_right_offset : Int) = 16) ∧
    (∃ sps : H264RawSPS,
      make_sps_h264 sampleLibrary { ctx1282 with width := 2147483647 } = some ⟨[0, 1, 2, 3],
        [Event.guess_level 100 10000000 60 (-2147483648) 720 2,
          Event.insert_unit_content (-1) 7 sps, Event.cbs_init 27,
          Event.write_fragment_data]⟩ ∧
      16 * ((sps.pic_width_in_mbs_minus1 : Int) + 1) -
        2 * (sps.frame_crop_right_offset : Int) = 1048576) := by
  constructor
  · exact ⟨{ sps720p with pic_width_in_mbs_minus1 := 0 }, by decide, by decide⟩
  · exact ⟨{ sps1282 with pic_width_in_mbs_minus1 := 65535, frame_crop_right_offset := 0 },
      by decide, by decide⟩

end cbs
